import Mathlib

namespace Stackup

/-- `LinkInput` from tolerance_calc.rs: one dimensional link of the chain. -/
structure LinkInput where
  nominal : ℝ
  plus_tolerance : ℝ
  minus_tolerance : ℝ
  direction : String
  distribution : String
  sigma : Option ℝ

/-- `TargetSpec` from tolerance_calc.rs. -/
structure TargetSpec where
  nominal : ℝ
  plus_tolerance : ℝ
  minus_tolerance : ℝ

/-- `ToleranceInput` from tolerance_calc.rs. -/
structure ToleranceInput where
  links : List LinkInput
  monte_carlo_samples : Option ℕ
  target_spec : Option TargetSpec

/-- `WorstCaseResult` from tolerance_calc.rs. -/
structure WorstCaseResult where
  min : ℝ
  max : ℝ
  tolerance : ℝ

/-- `RssResult` from tolerance_calc.rs. -/
structure RssResult where
  min : ℝ
  max : ℝ
  tolerance : ℝ
  sigma : ℝ

/-- `ContributionResult` from tolerance_calc.rs. -/
structure ContributionResult where
  index : ℕ
  nominal_contribution : ℝ
  variance_contribution : ℝ
  percent : ℝ

/-- `ToleranceCalcResult` from tolerance_calc.rs.  The `monte_carlo` field is
random-valued in the source (it is `run_monte_carlo` applied to freshly drawn
samples); the Monte-Carlo computation is modelled separately by
`run_monte_carlo` below, which takes the drawn sample totals as input. -/
structure ToleranceCalcResult where
  success : Bool
  error : Option String
  total_nominal : ℝ
  worst_case : WorstCaseResult
  rss : RssResult
  contributions : List ContributionResult

/-- The sign the source assigns to a link:
`if link.direction == "negative" { -1.0 } else { 1.0 }`. -/
noncomputable def linkSign (link : LinkInput) : ℝ :=
  if link.direction = "negative" then -1 else 1

/-- The loop body of `calculate_worst_case` (tolerance_calc.rs lines 177-189),
acting on the `(total_min, total_max)` accumulator. -/
noncomputable def worstCaseStep (acc : ℝ × ℝ) (link : LinkInput) : ℝ × ℝ :=
  if linkSign link > 0 then
    (acc.1 + (link.nominal - link.minus_tolerance),
     acc.2 + (link.nominal + link.plus_tolerance))
  else
    (acc.1 - (link.nominal + link.plus_tolerance),
     acc.2 - (link.nominal - link.minus_tolerance))

/-- `calculate_worst_case` from tolerance_calc.rs (lines 173-196). -/
noncomputable def calculate_worst_case (links : List LinkInput) : WorstCaseResult :=
  let t := links.foldl worstCaseStep (0, 0)
  { min := t.1, max := t.2, tolerance := (t.2 - t.1) / 2 }

/-- The per-link variance computed inside the loop of `calculate_rss`
(tolerance_calc.rs lines 207-227). -/
noncomputable def linkVariance (link : LinkInput) : ℝ :=
  let total_tol := link.plus_tolerance + link.minus_tolerance
  let sigma := link.sigma.getD 3
  match link.distribution with
  | "normal" => (total_tol / 2 / sigma) ^ 2
  | "uniform" => total_tol ^ 2 / 12
  | _ => (total_tol / 2 / sigma) ^ 2

/-- The loop body of `calculate_rss` (tolerance_calc.rs lines 203-230), acting
on the `(total_nominal, variances)` accumulator. -/
noncomputable def rssStep (acc : ℝ × List ℝ) (link : LinkInput) : ℝ × List ℝ :=
  (acc.1 + linkSign link * link.nominal, acc.2 ++ [linkVariance link])

/-- `calculate_rss` from tolerance_calc.rs (lines 199-244); returns the result
record together with the per-link variance vector. -/
noncomputable def calculate_rss (links : List LinkInput) : RssResult × List ℝ :=
  let t := links.foldl rssStep (0, [])
  let total_variance := t.2.sum
  let std_dev := Real.sqrt total_variance
  let tolerance := 3 * std_dev
  ({ min := t.1 - tolerance, max := t.1 + tolerance,
     tolerance := tolerance, sigma := std_dev }, t.2)

/-- `calculate_tolerance_stackup` from tolerance_calc.rs (lines 108-170),
without the random `monte_carlo` field (see `ToleranceCalcResult`). -/
noncomputable def calculate_tolerance_stackup (input : ToleranceInput) :
    ToleranceCalcResult :=
  if input.links.isEmpty then
    { success := false, error := some "No links provided", total_nominal := 0,
      worst_case := { min := 0, max := 0, tolerance := 0 },
      rss := { min := 0, max := 0, tolerance := 0, sigma := 0 },
      contributions := [] }
  else
    let total_nominal := (input.links.map fun link => linkSign link * link.nominal).sum
    let worst_case := calculate_worst_case input.links
    let rv := calculate_rss input.links
    let total_variance := rv.2.sum
    let contributions := input.links.enum.map fun p =>
      { index := p.1,
        nominal_contribution := linkSign p.2 * p.2.nominal,
        variance_contribution := rv.2.getD p.1 0,
        percent := if total_variance > 0 then 100 * rv.2.getD p.1 0 / total_variance
                   else 0 : ContributionResult }
    { success := true, error := none, total_nominal := total_nominal,
      worst_case := worst_case, rss := rv.1, contributions := contributions }

/-- The lower interval endpoint a link contributes to the worst-case sum,
as the spec states it: `[nominal - minus, nominal + plus]` for positive
links, `[-(nominal + plus), -(nominal - minus)]` for negative links. -/
noncomputable def wcMin (l : LinkInput) : ℝ :=
  if l.direction = "negative" then -(l.nominal + l.plus_tolerance)
  else l.nominal - l.minus_tolerance

/-- The upper interval endpoint a link contributes to the worst-case sum. -/
noncomputable def wcMax (l : LinkInput) : ℝ :=
  if l.direction = "negative" then -(l.nominal - l.minus_tolerance)
  else l.nominal + l.plus_tolerance

/-- The per-link variance written the way the spec states it. -/
noncomputable def specVariance (l : LinkInput) : ℝ :=
  if l.distribution = "uniform" then (l.plus_tolerance + l.minus_tolerance) ^ 2 / 12
  else ((l.plus_tolerance + l.minus_tolerance) / 2 / l.sigma.getD 3) ^ 2

/-- The two-link chain of the spec's end-to-end scenario 2. -/
noncomputable def exampleChain : ToleranceInput :=
  { links :=
      [{ nominal := 10, plus_tolerance := 0.1, minus_tolerance := 0.1,
         direction := "positive", distribution := "normal", sigma := some 3 },
       { nominal := 3, plus_tolerance := 0.2, minus_tolerance := 0.1,
         direction := "negative", distribution := "uniform", sigma := none }],
    monte_carlo_samples := none, target_spec := none }

end Stackup




/-- A single-link chain with a normal distribution (used as witness input). -/
noncomputable def singleNormalChain : Stackup.ToleranceInput :=
  { links := [{ nominal := 10, plus_tolerance := 0.1, minus_tolerance := 0.1,
                direction := "positive", distribution := "normal", sigma := some 3 }],
    monte_carlo_samples := none, target_spec := none }

/-- A single-link chain with a uniform distribution: `{0, plus 1, minus 1}`. -/
noncomputable def singleUniformChain : Stackup.ToleranceInput :=
  { links := [{ nominal := 0, plus_tolerance := 1, minus_tolerance := 1,
                direction := "positive", distribution := "uniform", sigma := none }],
    monte_carlo_samples := none, target_spec := none }




namespace Stackup

/-- `PercentileResult` from tolerance_calc.rs. -/
structure PercentileResult where
  p0_1 : ℝ
  p1 : ℝ
  p5 : ℝ
  p50 : ℝ
  p95 : ℝ
  p99 : ℝ
  p99_9 : ℝ

/-- `HistogramBin` from tolerance_calc.rs. -/
structure HistogramBin where
  min : ℝ
  max : ℝ
  count : ℕ
  percentage : ℝ

/-- `MonteCarloResult` from tolerance_calc.rs. -/
structure MonteCarloResult where
  mean : ℝ
  std_dev : ℝ
  min : ℝ
  max : ℝ
  cpk : ℝ
  percentiles : PercentileResult
  histogram : List HistogramBin

/-- The percentile index `(samples as f64 * c) as usize` of the source: the
cast to `usize` truncates the non-negative product, i.e. takes its floor. -/
noncomputable def pctIdx (samples : ℕ) (c : ℝ) : ℕ := ⌊(samples : ℝ) * c⌋₊

/-- The histogram filter condition of tolerance_calc.rs line 325:
`x >= bin_min && (i == num_bins - 1 || x < bin_max)`, with
`bin_min = mn + i*w` and `bin_max = bin_min + w`. -/
noncomputable def binPred (mn w : ℝ) (nb i : ℕ) : ℝ → Bool := fun x =>
  decide (mn + i * w ≤ x ∧ (i = nb - 1 ∨ x < mn + i * w + w))

/-- `run_monte_carlo` from tolerance_calc.rs (lines 247-345), modelled from
the point where the sampling loop has produced the per-iteration totals
`results` (the claims quantify over whatever values the random sampler
produced, so the RNG loop of lines 248-280 is replaced by the `results`
input).  Sorting `sort_by(partial_cmp)` is modelled by `insertionSort` on
`≤`. -/
noncomputable def run_monte_carlo (results : List ℝ)
    (target_spec : Option TargetSpec) : MonteCarloResult :=
  let samples := results.length
  let sorted := List.insertionSort (· ≤ ·) results
  let mean := results.sum / (samples : ℝ)
  let variance := (results.map fun x => (x - mean) ^ 2).sum / (samples : ℝ)
  let std_dev := Real.sqrt variance
  let mn := sorted.getD 0 0
  let mx := sorted.getD (samples - 1) 0
  let cpk := match target_spec with
    | some spec =>
        let upper_limit := spec.nominal + spec.plus_tolerance
        let lower_limit := spec.nominal - spec.minus_tolerance
        let cpu := (upper_limit - mean) / (3 * std_dev)
        let cpl := (mean - lower_limit) / (3 * std_dev)
        min cpu cpl
    | none => 1
  let percentiles : PercentileResult :=
    { p0_1 := sorted.getD (pctIdx samples 0.001) 0,
      p1 := sorted.getD (pctIdx samples 0.01) 0,
      p5 := sorted.getD (pctIdx samples 0.05) 0,
      p50 := sorted.getD (samples / 2) 0,
      p95 := sorted.getD (pctIdx samples 0.95) 0,
      p99 := sorted.getD (pctIdx samples 0.99) 0,
      p99_9 := sorted.getD (min (pctIdx samples 0.999) (samples - 1)) 0 }
  let num_bins : ℕ := 50
  let bin_width := (mx - mn) / (50 : ℝ)
  let histogram := (List.range num_bins).map fun (i : ℕ) =>
    let bin_min := mn + (i : ℝ) * bin_width
    let bin_max := bin_min + bin_width
    let count := sorted.countP (binPred mn bin_width num_bins i)
    { min := bin_min, max := bin_max, count := count,
      percentage := 100 * (count : ℝ) / (samples : ℝ) : HistogramBin }
  { mean := mean, std_dev := std_dev, min := mn, max := mx, cpk := cpk,
    percentiles := percentiles, histogram := histogram }

end Stackup


namespace Geom

/-- `[f64; 3]` vectors. -/
abbrev Vec3 := ℝ × ℝ × ℝ

/-- `normalize` as defined identically in interface_detection.rs (lines
236-243) and assembly_parser.rs (lines 465-472): divide by the Euclidean
length when it exceeds `1e-10`, otherwise return the vector unchanged. -/
noncomputable def normalize (v : Vec3) : Vec3 :=
  let len := Real.sqrt (v.1 * v.1 + v.2.1 * v.2.1 + v.2.2 * v.2.2)
  if len > 1e-10 then (v.1 / len, v.2.1 / len, v.2.2 / len) else v

/-- `cross` from assembly_parser.rs (lines 457-463). -/
noncomputable def cross (a b : Vec3) : Vec3 :=
  (a.2.1 * b.2.2 - a.2.2 * b.2.1,
   a.2.2 * b.1 - a.1 * b.2.2,
   a.1 * b.2.1 - a.2.1 * b.1)

end Geom

namespace StepAssembly

open Geom

/-- A `[f64; 16]` column-major matrix, one field per array slot. -/
structure M16 where
  m0 : ℝ
  m1 : ℝ
  m2 : ℝ
  m3 : ℝ
  m4 : ℝ
  m5 : ℝ
  m6 : ℝ
  m7 : ℝ
  m8 : ℝ
  m9 : ℝ
  m10 : ℝ
  m11 : ℝ
  m12 : ℝ
  m13 : ℝ
  m14 : ℝ
  m15 : ℝ

/-- `identity_matrix` from assembly_parser.rs (lines 448-455). -/
noncomputable def identity_matrix : M16 :=
  ⟨1, 0, 0, 0,
   0, 1, 0, 0,
   0, 0, 1, 0,
   0, 0, 0, 1⟩

/-- `PartBoundingBox` from assembly_parser.rs. -/
structure PartBoundingBox where
  min : Vec3
  max : Vec3
  dimensions : Vec3

/-- `ParsedFace` from assembly_parser.rs. -/
structure ParsedFace where
  id : ℤ
  face_type : String
  normal : Vec3
  center : Vec3
  area : ℝ
  radius : Option ℝ
  axis : Option Vec3
  step_entity_id : Option ℤ

/-- `ParsedPart` from assembly_parser.rs. -/
structure ParsedPart where
  id : String
  name : String
  step_entity_id : ℤ
  transform : M16
  bounding_box : Option PartBoundingBox
  faces : List ParsedFace
  product_definition_id : Option ℤ

end StepAssembly

namespace Interfaces

open Geom StepAssembly

/-- `DetectedInterface` from interface_detection.rs. -/
structure DetectedInterface where
  id : String
  part_a_id : String
  part_a_face_id : ℤ
  part_b_id : String
  part_b_face_id : ℤ
  interface_type : String
  proximity : ℝ
  normal_alignment : ℝ
  contact_area : ℝ
  contact_point : Vec3

/-- `InterfaceDetectionResult` from interface_detection.rs. -/
structure InterfaceDetectionResult where
  success : Bool
  error : Option String
  interfaces : List DetectedInterface
  junction_parts : List String
  total_interfaces : ℕ

/-- `DetectionParams` from interface_detection.rs. -/
structure DetectionParams where
  proximity_threshold : ℝ
  normal_threshold : ℝ
  min_contact_area : ℝ

/-- `TransformedFace` from interface_detection.rs. -/
structure TransformedFace where
  center : Vec3
  normal : Vec3
  face_type : String
  radius : Option ℝ

/-- `transform_point` from interface_detection.rs (lines 202-209). -/
noncomputable def transform_point (p : Vec3) (m : M16) : Vec3 :=
  (m.m0 * p.1 + m.m4 * p.2.1 + m.m8 * p.2.2 + m.m12,
   m.m1 * p.1 + m.m5 * p.2.1 + m.m9 * p.2.2 + m.m13,
   m.m2 * p.1 + m.m6 * p.2.1 + m.m10 * p.2.2 + m.m14)

/-- `transform_direction` from interface_detection.rs (lines 212-219). -/
noncomputable def transform_direction (d : Vec3) (m : M16) : Vec3 :=
  normalize
    (m.m0 * d.1 + m.m4 * d.2.1 + m.m8 * d.2.2,
     m.m1 * d.1 + m.m5 * d.2.1 + m.m9 * d.2.2,
     m.m2 * d.1 + m.m6 * d.2.1 + m.m10 * d.2.2)

/-- `transform_face` from interface_detection.rs (lines 192-199). -/
noncomputable def transform_face (f : ParsedFace) (m : M16) : TransformedFace :=
  { center := transform_point f.center m,
    normal := transform_direction f.normal m,
    face_type := f.face_type,
    radius := f.radius }

/-- `vec_distance` from interface_detection.rs (lines 222-227). -/
noncomputable def vec_distance (a b : Vec3) : ℝ :=
  Real.sqrt ((b.1 - a.1) * (b.1 - a.1) + (b.2.1 - a.2.1) * (b.2.1 - a.2.1)
    + (b.2.2 - a.2.2) * (b.2.2 - a.2.2))

/-- `normal_alignment` from interface_detection.rs (lines 231-233): the
signed dot product. -/
noncomputable def normal_alignment (a b : Vec3) : ℝ :=
  a.1 * b.1 + a.2.1 * b.2.1 + a.2.2 * b.2.2

/-- The radii test inside `classify_interface` (interface_detection.rs lines
260-267): both radii present and differing by less than 0.5. -/
noncomputable def radii_close (radius_a radius_b : Option ℝ) : Bool :=
  match radius_a, radius_b with
  | some r_a, some r_b => decide (|r_a - r_b| < 0.5)
  | _, _ => false

/-- `classify_interface` from interface_detection.rs (lines 246-279). -/
noncomputable def classify_interface (type_a type_b : String) (alignment : ℝ)
    (radius_a radius_b : Option ℝ) : String :=
  if type_a = "planar" ∧ type_b = "planar" ∧ alignment < -0.9 then
    "face_to_face"
  else if type_a = "cylindrical" ∧ type_b = "cylindrical"
      ∧ radii_close radius_a radius_b = true then
    "pin_in_hole"
  else if (type_a = "cylindrical" ∧ type_b = "planar")
      ∨ (type_a = "planar" ∧ type_b = "cylindrical") then
    "shaft_in_bore"
  else
    "unknown"

/-- `estimate_contact_area` from interface_detection.rs (lines 282-298). -/
noncomputable def estimate_contact_area (face_a face_b : TransformedFace)
    (interface_type : String) : ℝ :=
  match interface_type with
  | "face_to_face" => 10
  | "pin_in_hole" | "shaft_in_bore" =>
      match face_a.radius.or face_b.radius with
      | some r => Real.pi * r * r
      | none => 5
  | _ => 1

/-- The body of the face-pair loop of `find_interfaces_between_parts`
(interface_detection.rs lines 123-177): `none` when the pair is skipped
(too far apart, classified "none", or below the contact-area threshold),
otherwise the recorded interface with the given fresh id number. -/
noncomputable def pairInterface (params : DetectionParams)
    (part_a part_b : ParsedPart) (new_id : ℕ) (fa0 fb0 : ParsedFace)
    (face_a face_b : TransformedFace) : Option DetectedInterface :=
  let distance := vec_distance face_a.center face_b.center
  if distance > params.proximity_threshold then none
  else
    let alignment := normal_alignment face_a.normal face_b.normal
    let interface_type := classify_interface face_a.face_type face_b.face_type
      alignment face_a.radius face_b.radius
    if interface_type = "none" then none
    else
      let contact_point : Vec3 :=
        ((face_a.center.1 + face_b.center.1) / 2,
         (face_a.center.2.1 + face_b.center.2.1) / 2,
         (face_a.center.2.2 + face_b.center.2.2) / 2)
      let contact_area := estimate_contact_area face_a face_b interface_type
      if contact_area < params.min_contact_area then none
      else some
        { id := "interface-" ++ toString new_id,
          part_a_id := part_a.id,
          part_a_face_id := fa0.id,
          part_b_id := part_b.id,
          part_b_face_id := fb0.id,
          interface_type := interface_type,
          proximity := distance,
          normal_alignment := |alignment|,
          contact_area := contact_area,
          contact_point := contact_point }

/-- `find_interfaces_between_parts` from interface_detection.rs (lines
106-181), returning the produced interfaces together with the updated
interface-id counter. -/
noncomputable def find_interfaces_between_parts (part_a part_b : ParsedPart)
    (params : DetectionParams) (interface_id : ℕ) :
    List DetectedInterface × ℕ :=
  (List.product part_a.faces part_b.faces).foldl
    (fun acc pq =>
      let face_a := transform_face pq.1 part_a.transform
      let face_b := transform_face pq.2 part_b.transform
      match pairInterface params part_a part_b (acc.2 + 1) pq.1 pq.2 face_a face_b with
      | some r => (acc.1 ++ [r], acc.2 + 1)
      | none => acc)
    ([], interface_id)

/-- `detect_mating_interfaces` from interface_detection.rs (lines 51-103).
The `HashMap` counting interfaces per part id is modelled by counting
occurrences in the flattened id list; only its key order (unspecified for
the Rust `HashMap`) differs. -/
noncomputable def detect_mating_interfaces (parts : List ParsedPart)
    (proximity_threshold normal_threshold : ℝ) : InterfaceDetectionResult :=
  let params : DetectionParams :=
    { proximity_threshold := proximity_threshold,
      normal_threshold := normal_threshold,
      min_contact_area := 1 }
  let pairs := (List.range parts.length).flatMap fun i =>
    ((List.range parts.length).drop (i + 1)).map fun j => (i, j)
  let st := pairs.foldl
    (fun acc ij =>
      match parts.get? ij.1, parts.get? ij.2 with
      | some part_a, some part_b =>
          let r := find_interfaces_between_parts part_a part_b params acc.2
          (acc.1 ++ r.1, r.2)
      | _, _ => acc)
    ([], 0)
  let interfaces := st.1
  let ids := interfaces.flatMap fun r => [r.part_a_id, r.part_b_id]
  let junction_parts := ids.dedup.filter fun pid => 1 < ids.count pid
  { success := true, error := none,
    total_interfaces := interfaces.length,
    interfaces := interfaces,
    junction_parts := junction_parts }

end Interfaces


/-- Detection parameters used in concrete examples: thresholds 2.0 / 0.95,
minimum contact area 1.0 (the values `detect_mating_interfaces` builds). -/
noncomputable def c3params : Interfaces.DetectionParams := ⟨2, 0.95, 1⟩

/-- A part at the origin with no faces of its own (example input). -/
noncomputable def c3part_a : StepAssembly.ParsedPart :=
  ⟨"part-0", "A", 0, StepAssembly.identity_matrix, none, [], none⟩

/-- A second part at the origin with no faces of its own (example input). -/
noncomputable def c3part_b : StepAssembly.ParsedPart :=
  ⟨"part-1", "B", 1, StepAssembly.identity_matrix, none, [], none⟩

/-- An upward-facing planar face at the origin (example input). -/
noncomputable def c3fa0 : StepAssembly.ParsedFace :=
  ⟨0, "planar", (0, 0, 1), (0, 0, 0), 0, none, none, none⟩

/-- A downward-facing planar face at the origin (example input). -/
noncomputable def c3fb0 : StepAssembly.ParsedFace :=
  ⟨0, "planar", (0, 0, -1), (0, 0, 0), 0, none, none, none⟩

/-- The world-space view of `c3fa0` (identity placement). -/
noncomputable def c3face_a : Interfaces.TransformedFace :=
  ⟨(0, 0, 0), (0, 0, 1), "planar", none⟩

/-- The world-space view of `c3fb0` (identity placement). -/
noncomputable def c3face_b : Interfaces.TransformedFace :=
  ⟨(0, 0, 0), (0, 0, -1), "planar", none⟩

/-- A part whose single freeform face points along +Z (failing input for the
normal-threshold pruning requirement). -/
noncomputable def c7part_a : StepAssembly.ParsedPart :=
  ⟨"part-0", "A", 0, StepAssembly.identity_matrix, none,
    [⟨0, "freeform", (0, 0, 1), (0, 0, 0), 0, none, none, none⟩], none⟩

/-- A part whose single freeform face points along +X, at the same location. -/
noncomputable def c7part_b : StepAssembly.ParsedPart :=
  ⟨"part-1", "B", 1, StepAssembly.identity_matrix, none,
    [⟨0, "freeform", (1, 0, 0), (0, 0, 0), 0, none, none, none⟩], none⟩


namespace StepAssembly

open Geom

/-- The view of a STEP entity's raw payload text used by the parser.  The
source extracts from the payload, via regexes, exactly: the `#n` entity
references in order (`refs`), the first single-quoted string (`quoted`),
the first three-float tuple (`point`, what `parse_cartesian_point` returns),
and the last float literal (`lastNumber`, the cylindrical-surface radius).
The regex scanning itself is abstracted to these extraction results. -/
structure EntityData where
  refs : List ℤ
  quoted : Option String
  point : Option Vec3
  lastNumber : Option ℝ

/-- `StepEntity` from assembly_parser.rs. -/
structure StepEntity where
  id : ℤ
  entity_type : String
  data : EntityData

/-- The id lookup in the entity map (`entities.get(&ref_id)`); the Rust
`HashMap` keyed by the unique entity id is modelled as a list searched by
id. -/
noncomputable def lookup (entities : List StepEntity) (i : ℤ) : Option StepEntity :=
  entities.find? fun e => e.id == i

/-- `parse_cartesian_point` from assembly_parser.rs (lines 254-263): the
first three-float tuple of the payload, if any. -/
noncomputable def parse_cartesian_point (d : EntityData) : Option Vec3 := d.point

/-- `parse_direction` from assembly_parser.rs (lines 266-268). -/
noncomputable def parse_direction (d : EntityData) : Option Vec3 :=
  (parse_cartesian_point d).map Geom.normalize

/-- The location an AXIS2_PLACEMENT_3D resolves from its first reference
(assembly_parser.rs lines 226-229), defaulting to the origin. -/
noncomputable def resolved_location (entities : List StepEntity) (refs : List ℤ) : Vec3 :=
  (((refs.get? 0).bind (lookup entities)).bind fun e =>
    parse_cartesian_point e.data).getD (0, 0, 0)

/-- The Z axis resolved from the second reference (lines 231-234),
defaulting to +Z. -/
noncomputable def resolved_z_axis (entities : List StepEntity) (refs : List ℤ) : Vec3 :=
  (((refs.get? 1).bind (lookup entities)).bind fun e =>
    parse_direction e.data).getD (0, 0, 1)

/-- The X reference direction resolved from the third reference (lines
236-239), defaulting to +X. -/
noncomputable def resolved_x_axis (entities : List StepEntity) (refs : List ℤ) : Vec3 :=
  (((refs.get? 2).bind (lookup entities)).bind fun e =>
    parse_direction e.data).getD (1, 0, 0)

/-- `parse_axis_placement` from assembly_parser.rs (lines 215-251). -/
noncomputable def parse_axis_placement (entities : List StepEntity) (d : EntityData) :
    Option M16 :=
  if d.refs.isEmpty then some identity_matrix
  else
    let location := resolved_location entities d.refs
    let z_axis := resolved_z_axis entities d.refs
    let x_axis := resolved_x_axis entities d.refs
    let y_axis := cross z_axis x_axis
    some
      ⟨x_axis.1, x_axis.2.1, x_axis.2.2, 0,
       y_axis.1, y_axis.2.1, y_axis.2.2, 0,
       z_axis.1, z_axis.2.1, z_axis.2.2, 0,
       location.1, location.2.1, location.2.2, 1⟩

/-- `find_axis_placement` from assembly_parser.rs (lines 369-396): the first
reference resolving to an AXIS2_PLACEMENT_3D yields its (position,
direction) pair. -/
noncomputable def find_axis_placement (entities : List StepEntity) (d : EntityData) :
    Option (Option Vec3 × Option Vec3) :=
  d.refs.findSome? fun r =>
    match lookup entities r with
    | some e =>
        if e.entity_type = "AXIS2_PLACEMENT_3D" then
          some ((((e.data.refs.get? 0).bind (lookup entities)).bind fun e2 =>
                  parse_cartesian_point e2.data),
                (((e.data.refs.get? 1).bind (lookup entities)).bind fun e2 =>
                  parse_direction e2.data))
        else none
    | none => none

/-- `parse_cylindrical_surface` from assembly_parser.rs (lines 399-411). -/
noncomputable def parse_cylindrical_surface (entities : List StepEntity)
    (d : EntityData) : Option ((Option Vec3 × Option Vec3) × Option ℝ) :=
  (find_axis_placement entities d).map fun p => (p, d.lastNumber)

/-- The mutable state of `extract_face_geometry` (assembly_parser.rs lines
302-307). -/
structure FaceGeo where
  face_type : String
  normal : Vec3
  center : Vec3
  radius : Option ℝ
  axis : Option Vec3

/-- One iteration of the reference loop of `extract_face_geometry`
(assembly_parser.rs lines 310-356). -/
noncomputable def faceGeoStep (entities : List StepEntity) (st : FaceGeo) (r : ℤ) :
    FaceGeo :=
  match lookup entities r with
  | none => st
  | some e =>
      match e.entity_type with
      | "PLANE" =>
          let st1 := { st with face_type := "planar" }
          match find_axis_placement entities e.data with
          | none => st1
          | some pl =>
              let st2 := match pl.1 with
                | some pos => { st1 with center := pos }
                | none => st1
              match pl.2 with
              | some dir => { st2 with normal := dir, axis := some dir }
              | none => st2
      | "CYLINDRICAL_SURFACE" =>
          let st1 := { st with face_type := "cylindrical" }
          match parse_cylindrical_surface entities e.data with
          | none => st1
          | some pr =>
              let st2 := match pr.1.1 with
                | some pos => { st1 with center := pos }
                | none => st1
              let st3 := match pr.1.2 with
                | some dir => { st2 with axis := some dir, normal := (1, 0, 0) }
                | none => st2
              { st3 with radius := pr.2 }
      | "CONICAL_SURFACE" => { st with face_type := "conical" }
      | "SPHERICAL_SURFACE" => { st with face_type := "spherical" }
      | "TOROIDAL_SURFACE" => { st with face_type := "toroidal" }
      | "B_SPLINE_SURFACE_WITH_KNOTS" => { st with face_type := "freeform" }
      | "B_SPLINE_SURFACE" => { st with face_type := "freeform" }
      | _ => st

/-- `extract_face_geometry` from assembly_parser.rs (lines 299-366),
including the final content-wide fallback: if the face is still freeform and
the whole file content contains the substring "PLANE", the face type becomes
planar.  `content_has_plane` stands for `content.contains("PLANE")`. -/
noncomputable def extract_face_geometry (entities : List StepEntity) (d : EntityData)
    (content_has_plane : Bool) : FaceGeo :=
  let st := d.refs.foldl (faceGeoStep entities)
    ⟨"freeform", (0, 0, 1), (0, 0, 0), none, none⟩
  if st.face_type = "freeform" ∧ content_has_plane = true then
    { st with face_type := "planar" }
  else st

/-- `extract_faces_for_product` from assembly_parser.rs (lines 271-296):
every ADVANCED_FACE / FACE_SURFACE entity becomes a face (the product id is
unused by the source, which attaches every face to every part); `area` is
the literal 0.0 of line 285. -/
noncomputable def extract_faces_for_product (entities : List StepEntity)
    (content_has_plane : Bool) (_product_id : ℤ) : List ParsedFace :=
  ((entities.filter fun e =>
      e.entity_type == "ADVANCED_FACE" || e.entity_type == "FACE_SURFACE").enum).map
    fun p =>
      let g := extract_face_geometry entities p.2.data content_has_plane
      { id := (p.1 : ℤ), face_type := g.face_type, normal := g.normal,
        center := g.center, area := 0, radius := g.radius, axis := g.axis,
        step_entity_id := some p.2.id }

/-- `extract_product_name` from assembly_parser.rs (lines 173-190).  The
source recurses through PRODUCT_DEFINITION_FORMATION references without a
bound; the `fuel` argument bounds the recursion in the model (any fuel at
least the reference-nesting depth gives the source's result; the caller
passes `entities.length + 1`). -/
noncomputable def extract_product_name (entities : List StepEntity) :
    ℕ → EntityData → Option String
  | 0, _ => none
  | fuel + 1, d =>
      (d.refs.findSome? fun r =>
        match lookup entities r with
        | some e =>
            if e.entity_type = "PRODUCT_DEFINITION_FORMATION" then
              some (extract_product_name entities fuel e.data)
            else if e.entity_type = "PRODUCT" then some e.data.quoted
            else none
        | none => none).join

/-- `extract_product_definitions` from assembly_parser.rs (lines 144-170).
The Rust `HashMap` of products is modelled as an association list in entity
order (the map's own iteration order is unspecified). -/
noncomputable def extract_product_definitions (entities : List StepEntity) :
    List (ℤ × String) :=
  let products := entities.filterMap fun e =>
    if e.entity_type = "PRODUCT_DEFINITION" then
      some (e.id, (extract_product_name entities (entities.length + 1) e.data).getD
        ("Part_" ++ toString e.id))
    else none
  if products.isEmpty then
    entities.filterMap fun e =>
      if e.entity_type = "MANIFOLD_SOLID_BREP" then
        some (e.id, e.data.quoted.getD ("Solid_" ++ toString e.id))
      else none
  else products

/-- `extract_transforms` from assembly_parser.rs (lines 199-212). -/
noncomputable def extract_transforms (entities : List StepEntity) : List (ℤ × M16) :=
  entities.filterMap fun e =>
    if e.entity_type = "AXIS2_PLACEMENT_3D" then
      (parse_axis_placement entities e.data).map fun m => (e.id, m)
    else none

/-- The largest finite `f64` value (`f64::MAX`). -/
noncomputable def f64MAX : ℝ := (2 - 2 ^ (-(52 : ℤ))) * 2 ^ (1023 : ℕ)

/-- `calculate_bounding_box` from assembly_parser.rs (lines 414-444);
`f64::MIN = -f64::MAX`. -/
noncomputable def calculate_bounding_box (faces : List ParsedFace) :
    Option PartBoundingBox :=
  if faces.isEmpty then none
  else
    let p1 := faces.foldl
      (fun acc f =>
        ((min acc.1.1 f.center.1, min acc.1.2.1 f.center.2.1,
          min acc.1.2.2 f.center.2.2),
         (max acc.2.1 f.center.1, max acc.2.2.1 f.center.2.1,
          max acc.2.2.2 f.center.2.2)))
      ((f64MAX, f64MAX, f64MAX), (-f64MAX, -f64MAX, -f64MAX))
    let p2 := faces.foldl
      (fun acc f =>
        match f.radius with
        | some r =>
            ((min acc.1.1 (f.center.1 - r), min acc.1.2.1 (f.center.2.1 - r),
              min acc.1.2.2 (f.center.2.2 - r)),
             (max acc.2.1 (f.center.1 + r), max acc.2.2.1 (f.center.2.1 + r),
              max acc.2.2.2 (f.center.2.2 + r)))
        | none => acc)
      p1
    some
      { min := p2.1, max := p2.2,
        dimensions := (p2.2.1 - p2.1.1, p2.2.2.1 - p2.1.2.1, p2.2.2.2 - p2.1.2.2) }

/-- `AssemblyParseResult` from assembly_parser.rs. -/
structure AssemblyParseResult where
  success : Bool
  error : Option String
  filename : Option String
  parts : List ParsedPart
  total_parts : ℕ
  has_sub_assemblies : Bool

/-- `parse_assembly_step` from assembly_parser.rs (lines 61-121) with the
content-string scans abstracted: `has_step_marker` stands for
`content.contains("ISO-10303-21") || content.contains("STEP")`, `entities`
for `parse_step_entities(content)`, `content_has_plane` for
`content.contains("PLANE")`, and `has_nauo` for
`content.contains("NEXT_ASSEMBLY_USAGE_OCCURRENCE")`. -/
noncomputable def parse_assembly_core (has_step_marker : Bool)
    (entities : List StepEntity) (content_has_plane : Bool) (has_nauo : Bool)
    (filename : String) : AssemblyParseResult :=
  if !has_step_marker then
    { success := false, error := some "Invalid STEP file format",
      filename := some filename, parts := [], total_parts := 0,
      has_sub_assemblies := false }
  else
    let product_defs := extract_product_definitions entities
    let transforms := extract_transforms entities
    let parts := product_defs.enum.map fun p =>
      let transform := ((transforms.find? fun t => t.1 == p.2.1).map fun t => t.2).getD
        identity_matrix
      let faces := extract_faces_for_product entities content_has_plane p.2.1
      { id := "part-" ++ toString p.1, name := p.2.2, step_entity_id := p.2.1,
        transform := transform, bounding_box := calculate_bounding_box faces,
        faces := faces, product_definition_id := some p.2.1 : ParsedPart }
    { success := true, error := none, filename := some filename,
      parts := parts, total_parts := parts.length, has_sub_assemblies := has_nauo }

end StepAssembly


/-- Entities for the C10 witness: one product definition and one advanced
face, both with empty payload data. -/
noncomputable def c10entities : List StepAssembly.StepEntity :=
  [⟨1, "PRODUCT_DEFINITION", ⟨[], none, none, none⟩⟩,
   ⟨2, "ADVANCED_FACE", ⟨[], none, none, none⟩⟩]


/-- Entities for the C9 counterexample and witness: one B-spline surface,
and (for the counterexample) a PLANE entity elsewhere in the same file. -/
noncomputable def c9entities : List StepAssembly.StepEntity :=
  [⟨5, "B_SPLINE_SURFACE", ⟨[], none, none, none⟩⟩,
   ⟨7, "PLANE", ⟨[], none, none, none⟩⟩]

/-- Payload of a face whose only reference is the B-spline surface `#5`. -/
noncomputable def c9face_data : StepAssembly.EntityData := ⟨[5], none, none, none⟩

namespace Geom

/-- Euclidean dot product on `Vec3` (used to state orthonormality). -/
noncomputable def dotV (a b : Vec3) : ℝ :=
  a.1 * b.1 + a.2.1 * b.2.1 + a.2.2 * b.2.2

end Geom

namespace StepAssembly

open Geom

/-- The column-major matrix `parse_axis_placement` emits (assembly_parser.rs
lines 245-250): columns `(x, 0)`, `(y, 0)`, `(z, 0)`, `(loc, 1)`. -/
noncomputable def axisM (x y z loc : Vec3) : M16 :=
  ⟨x.1, x.2.1, x.2.2, 0,
   y.1, y.2.1, y.2.2, 0,
   z.1, z.2.1, z.2.2, 0,
   loc.1, loc.2.1, loc.2.2, 1⟩

/-- The upper-left 3x3 rotation block of a column-major `M16`. -/
noncomputable def rot_block (m : M16) : Matrix (Fin 3) (Fin 3) ℝ :=
  !![m.m0, m.m4, m.m8;
     m.m1, m.m5, m.m9;
     m.m2, m.m6, m.m10]

end StepAssembly


/-- Entities for the C5 witness: location at the origin, Z axis +Z, X axis
+X (orthonormal frame). -/
noncomputable def c5entsW : List StepAssembly.StepEntity :=
  [⟨1, "CARTESIAN_POINT", ⟨[], none, some (0, 0, 0), none⟩⟩,
   ⟨2, "DIRECTION", ⟨[], none, some (0, 0, 1), none⟩⟩,
   ⟨3, "DIRECTION", ⟨[], none, some (1, 0, 0), none⟩⟩]

/-- Payload of an AXIS2_PLACEMENT_3D referencing `#1 #2 #3`. -/
noncomputable def c5dataW : StepAssembly.EntityData := ⟨[1, 2, 3], none, none, none⟩

/-- Entities for the C5 counterexample: the X reference direction `(1,0,1)`
is linearly independent of the Z axis `(0,0,1)` but not orthogonal to it. -/
noncomputable def c5entsC : List StepAssembly.StepEntity :=
  [⟨1, "CARTESIAN_POINT", ⟨[], none, some (0, 0, 0), none⟩⟩,
   ⟨2, "DIRECTION", ⟨[], none, some (0, 0, 1), none⟩⟩,
   ⟨3, "DIRECTION", ⟨[], none, some (1, 0, 1), none⟩⟩]

/-- Payload of the skewed AXIS2_PLACEMENT_3D referencing `#1 #2 #3`. -/
noncomputable def c5dataC : StepAssembly.EntityData := ⟨[1, 2, 3], none, none, none⟩



namespace Stackup

lemma worstCaseStep_eq (acc : ℝ × ℝ) (l : LinkInput) :
    worstCaseStep acc l = (acc.1 + wcMin l, acc.2 + wcMax l) := by
  unfold worstCaseStep wcMin wcMax linkSign
  by_cases h : l.direction = "negative"
  · rw [if_pos h, if_pos h, if_pos h, if_neg (by norm_num : ¬((-1:ℝ) > 0)), Prod.mk.injEq]
    constructor <;> ring
  · rw [if_neg h, if_neg h, if_neg h, if_pos (by norm_num : ((1:ℝ) > 0)), Prod.mk.injEq]
    constructor <;> ring

lemma worstCase_foldl (links : List LinkInput) (a b : ℝ) :
    links.foldl worstCaseStep (a, b)
      = (a + (links.map wcMin).sum, b + (links.map wcMax).sum) := by
  induction links generalizing a b with
  | nil => simp
  | cons l t ih =>
      simp only [List.foldl_cons, worstCaseStep_eq, List.map_cons, List.sum_cons, ih]
      rw [Prod.mk.injEq]
      constructor <;> ring

lemma calculate_worst_case_eq (links : List LinkInput) :
    calculate_worst_case links
      = { min := (links.map wcMin).sum, max := (links.map wcMax).sum,
          tolerance := ((links.map wcMax).sum - (links.map wcMin).sum) / 2 } := by
  unfold calculate_worst_case
  rw [worstCase_foldl]
  simp

lemma rss_foldl (links : List LinkInput) (t : ℝ) (vs : List ℝ) :
    links.foldl rssStep (t, vs)
      = (t + (links.map fun l => linkSign l * l.nominal).sum,
         vs ++ links.map linkVariance) := by
  induction links generalizing t vs with
  | nil => simp
  | cons l r ih =>
      simp only [List.foldl_cons, rssStep, List.map_cons, List.sum_cons, ih,
        List.append_assoc, List.singleton_append]
      rw [Prod.mk.injEq]
      constructor <;> [ring; rfl]

lemma calculate_rss_eq (links : List LinkInput) :
    calculate_rss links
      = ({ min := (links.map fun l => linkSign l * l.nominal).sum
                    - 3 * Real.sqrt ((links.map linkVariance).sum),
           max := (links.map fun l => linkSign l * l.nominal).sum
                    + 3 * Real.sqrt ((links.map linkVariance).sum),
           tolerance := 3 * Real.sqrt ((links.map linkVariance).sum),
           sigma := Real.sqrt ((links.map linkVariance).sum) },
         links.map linkVariance) := by
  unfold calculate_rss
  rw [rss_foldl]
  simp

lemma linkVariance_eq_spec (l : LinkInput) : linkVariance l = specVariance l := by
  unfold linkVariance specVariance
  split
  · next h => rw [h, if_neg (by decide : ¬("normal" = "uniform"))]
  · next h => rw [if_pos h]
  · next _ h' => rw [if_neg h']

lemma isEmpty_eq_false {α : Type _} {l : List α} (h : l ≠ []) : l.isEmpty = false := by
  cases l with
  | nil => exact absurd rfl h
  | cons a t => rfl

lemma stackup_worst_case (input : ToleranceInput) (h : input.links ≠ []) :
    (calculate_tolerance_stackup input).worst_case = calculate_worst_case input.links := by
  unfold calculate_tolerance_stackup
  rw [isEmpty_eq_false h]
  rfl

lemma stackup_rss (input : ToleranceInput) (h : input.links ≠ []) :
    (calculate_tolerance_stackup input).rss = (calculate_rss input.links).1 := by
  unfold calculate_tolerance_stackup
  rw [isEmpty_eq_false h]
  rfl

lemma stackup_total_nominal (input : ToleranceInput) (h : input.links ≠ []) :
    (calculate_tolerance_stackup input).total_nominal
      = (input.links.map fun l => linkSign l * l.nominal).sum := by
  unfold calculate_tolerance_stackup
  rw [isEmpty_eq_false h]
  rfl

lemma sum_map_sub {α : Type _} (l : List α) (f g : α → ℝ) :
    (l.map f).sum - (l.map g).sum = (l.map fun x => f x - g x).sum := by
  induction l with
  | nil => simp
  | cons a t ih => simp only [List.map_cons, List.sum_cons, ← ih]; ring

lemma wcMax_sub_wcMin (l : LinkInput) :
    wcMax l - wcMin l = l.plus_tolerance + l.minus_tolerance := by
  unfold wcMax wcMin
  by_cases h : l.direction = "negative"
  · rw [if_pos h, if_pos h]; ring
  · rw [if_neg h, if_neg h]; ring

lemma sum_sq_le_sq_sum (l : List ℝ) (h : ∀ x ∈ l, 0 ≤ x) :
    (l.map fun x => x ^ 2).sum ≤ l.sum ^ 2 := by
  induction l with
  | nil => simp
  | cons a t ih =>
      simp only [List.map_cons, List.sum_cons]
      have ha : 0 ≤ a := h a (List.mem_cons_self a t)
      have ht : ∀ x ∈ t, 0 ≤ x := fun x hx => h x (List.mem_cons_of_mem a hx)
      have hs : 0 ≤ t.sum := List.sum_nonneg ht
      nlinarith [ih ht]

lemma sqrt_sum_sq_le_sum (l : List ℝ) (h : ∀ x ∈ l, 0 ≤ x) :
    Real.sqrt ((l.map fun x => x ^ 2).sum) ≤ l.sum := by
  calc Real.sqrt ((l.map fun x => x ^ 2).sum)
      ≤ Real.sqrt (l.sum ^ 2) := Real.sqrt_le_sqrt (sum_sq_le_sq_sum l h)
    _ = l.sum := Real.sqrt_sq (List.sum_nonneg h)

end Stackup

open Stackup in
/-- **C1.** For every non-empty link list, `calculate_tolerance_stackup`'s
worst-case result is the componentwise interval sum: each positive-direction
link contributes `[nominal - minus, nominal + plus]`, each negative-direction
link contributes `[-(nominal + plus), -(nominal - minus)]` (see `wcMin`,
`wcMax`); the reported min and max are the sums of these endpoints and
`tolerance = (max - min) / 2`.  In particular, on the two-link chain
`{10, plus 0.1, minus 0.1, positive, normal}`,
`{3, plus 0.2, minus 0.1, negative, uniform}`
the result has `min = 6.7` and `max = 7.2`. -/
theorem c1_worst_case_interval_sum (input : ToleranceInput) (h : input.links ≠ []) :
    ((calculate_tolerance_stackup input).worst_case.min = (input.links.map wcMin).sum
      ∧ (calculate_tolerance_stackup input).worst_case.max = (input.links.map wcMax).sum
      ∧ (calculate_tolerance_stackup input).worst_case.tolerance
          = ((calculate_tolerance_stackup input).worst_case.max
              - (calculate_tolerance_stackup input).worst_case.min) / 2)
    ∧ ((calculate_tolerance_stackup exampleChain).worst_case.min = 6.7
      ∧ (calculate_tolerance_stackup exampleChain).worst_case.max = 7.2) := by
  have hex : (exampleChain.links : List LinkInput) ≠ [] := by
    simp [exampleChain]
  constructor
  · rw [stackup_worst_case input h, calculate_worst_case_eq]
    exact ⟨rfl, rfl, rfl⟩
  · rw [stackup_worst_case exampleChain hex, calculate_worst_case_eq]
    unfold exampleChain
    norm_num [wcMin, wcMax]
    rw [if_neg (by decide : ¬("positive" = "negative")),
        if_neg (by decide : ¬("positive" = "negative"))]
    norm_num

/-- Witness for `c1_worst_case_interval_sum` at the spec's two-link chain. -/
theorem c1_witness :
    (Stackup.exampleChain.links ≠ [])
    ∧ (((Stackup.calculate_tolerance_stackup Stackup.exampleChain).worst_case.min
          = (Stackup.exampleChain.links.map Stackup.wcMin).sum
        ∧ (Stackup.calculate_tolerance_stackup Stackup.exampleChain).worst_case.max
          = (Stackup.exampleChain.links.map Stackup.wcMax).sum
        ∧ (Stackup.calculate_tolerance_stackup Stackup.exampleChain).worst_case.tolerance
          = ((Stackup.calculate_tolerance_stackup Stackup.exampleChain).worst_case.max
              - (Stackup.calculate_tolerance_stackup Stackup.exampleChain).worst_case.min) / 2)
      ∧ ((Stackup.calculate_tolerance_stackup Stackup.exampleChain).worst_case.min = 6.7
        ∧ (Stackup.calculate_tolerance_stackup Stackup.exampleChain).worst_case.max = 7.2)) :=
  ⟨by simp [Stackup.exampleChain],
   c1_worst_case_interval_sum Stackup.exampleChain (by simp [Stackup.exampleChain])⟩

open Stackup in
/-- **C2.** For every non-empty link list, the RSS result is computed as:
per-link variance `((plus+minus)/2/sigma)^2` for "normal" or unrecognized
distributions (`sigma` defaulting to 3.0), `(plus+minus)^2/12` for "uniform"
(see `specVariance`); the reported sigma is the square root of the summed
variances, `tolerance = 3*sigma`, `min/max = total_nominal ∓ tolerance`,
and `total_nominal` is the sign-weighted sum of nominals. -/
theorem c2_rss_formulas (input : ToleranceInput) (h : input.links ≠ []) :
    (calculate_tolerance_stackup input).rss.sigma
        = Real.sqrt ((input.links.map specVariance).sum)
    ∧ (calculate_tolerance_stackup input).rss.tolerance
        = 3 * (calculate_tolerance_stackup input).rss.sigma
    ∧ (calculate_tolerance_stackup input).rss.min
        = (calculate_tolerance_stackup input).total_nominal
            - (calculate_tolerance_stackup input).rss.tolerance
    ∧ (calculate_tolerance_stackup input).rss.max
        = (calculate_tolerance_stackup input).total_nominal
            + (calculate_tolerance_stackup input).rss.tolerance
    ∧ (calculate_tolerance_stackup input).total_nominal
        = (input.links.map fun l =>
            (if l.direction = "negative" then (-1 : ℝ) else 1) * l.nominal).sum := by
  have hv : input.links.map linkVariance = input.links.map specVariance :=
    List.map_congr_left fun l _ => linkVariance_eq_spec l
  rw [stackup_rss input h, stackup_total_nominal input h, calculate_rss_eq]
  refine ⟨by rw [← hv], rfl, rfl, rfl, rfl⟩

/-- Witness for `c2_rss_formulas` at the spec's two-link chain. -/
theorem c2_witness :
    (Stackup.exampleChain.links ≠ [])
    ∧ (Stackup.calculate_tolerance_stackup Stackup.exampleChain).rss.sigma
        = Real.sqrt ((Stackup.exampleChain.links.map Stackup.specVariance).sum) :=
  ⟨by simp [Stackup.exampleChain],
   (c2_rss_formulas Stackup.exampleChain (by simp [Stackup.exampleChain])).1⟩

open Stackup in
/-- **C4 (amended).** The claim "RSS tolerance is less than or equal to the
worst-case tolerance for every non-empty link list, whatever mix of
directions, distributions and sigma values" fails (see the counterexample);
it holds once every link's distribution is non-uniform, every sigma (default
3.0) is at least 3, and every link's combined tolerance `plus + minus` is
non-negative. -/
theorem c4_rss_le_worst_amended (input : ToleranceInput) (h : input.links ≠ [])
    (hdist : ∀ l ∈ input.links, l.distribution ≠ "uniform")
    (hsig : ∀ l ∈ input.links, (3 : ℝ) ≤ l.sigma.getD 3)
    (htol : ∀ l ∈ input.links, (0 : ℝ) ≤ l.plus_tolerance + l.minus_tolerance) :
    (calculate_tolerance_stackup input).rss.tolerance
      ≤ (calculate_tolerance_stackup input).worst_case.tolerance := by
  rw [stackup_rss input h, stackup_worst_case input h, calculate_rss_eq,
    calculate_worst_case_eq]
  show 3 * Real.sqrt ((input.links.map linkVariance).sum) ≤ _
  -- abbreviate the per-link tolerance half-width
  set T : LinkInput → ℝ := fun l => (l.plus_tolerance + l.minus_tolerance) / 2 with hT
  have hTnn : ∀ l ∈ input.links, 0 ≤ T l := fun l hl => by
    have := htol l hl; rw [hT]; positivity
  -- step 1: each variance is at most (T l / 3)^2
  have hvar : ∀ l ∈ input.links, linkVariance l ≤ (T l / 3) ^ 2 := by
    intro l hl
    rw [linkVariance_eq_spec, specVariance, if_neg (hdist l hl)]
    have h3 : (0 : ℝ) < 3 := by norm_num
    have hs3 : (3 : ℝ) ≤ l.sigma.getD 3 := hsig l hl
    have hnum : 0 ≤ (l.plus_tolerance + l.minus_tolerance) / 2 := by
      have := htol l hl; positivity
    have hdivle : (l.plus_tolerance + l.minus_tolerance) / 2 / l.sigma.getD 3
        ≤ (l.plus_tolerance + l.minus_tolerance) / 2 / 3 :=
      div_le_div_of_nonneg_left hnum h3 hs3
    have hspos : (0 : ℝ) < l.sigma.getD 3 := lt_of_lt_of_le h3 hs3
    have hdivnn : 0 ≤ (l.plus_tolerance + l.minus_tolerance) / 2 / l.sigma.getD 3 :=
      div_nonneg hnum (le_of_lt hspos)
    have := pow_le_pow_left₀ hdivnn hdivle 2
    simpa [hT] using this
  -- step 2: bound the summed variance
  have hsum1 : (input.links.map linkVariance).sum
      ≤ (input.links.map fun l => (T l / 3) ^ 2).sum := List.sum_le_sum hvar
  have hsum2 : (input.links.map fun l => (T l / 3) ^ 2).sum
      = ((input.links.map T).map fun x => x ^ 2).sum * (1 / 9) := by
    rw [List.map_map, ← List.sum_map_mul_right]
    exact congrArg List.sum
      (List.map_congr_left fun l _ => by simp only [Function.comp_apply]; ring)
  -- step 3: take square roots
  have hsqrt : Real.sqrt ((input.links.map linkVariance).sum)
      ≤ Real.sqrt (((input.links.map T).map fun x => x ^ 2).sum) / 3 := by
    have h9 : Real.sqrt (((input.links.map T).map fun x => x ^ 2).sum * (1 / 9))
        = Real.sqrt (((input.links.map T).map fun x => x ^ 2).sum) / 3 := by
      rw [show ((input.links.map T).map fun x => x ^ 2).sum * (1 / 9)
            = ((input.links.map T).map fun x => x ^ 2).sum / 9 by ring,
        Real.sqrt_div (List.sum_nonneg fun x hx => by
          rcases List.mem_map.1 hx with ⟨y, _, rfl⟩; positivity) 9,
        show (9 : ℝ) = 3 ^ 2 by norm_num, Real.sqrt_sq (by norm_num)]
    calc Real.sqrt ((input.links.map linkVariance).sum)
        ≤ Real.sqrt (((input.links.map T).map fun x => x ^ 2).sum * (1 / 9)) := by
          apply Real.sqrt_le_sqrt; rw [← hsum2]; exact hsum1
      _ = _ := h9
  -- step 4: sqrt of the sum of squares is at most the sum
  have hfin : Real.sqrt (((input.links.map T).map fun x => x ^ 2).sum)
      ≤ (input.links.map T).sum := by
    apply sqrt_sum_sq_le_sum
    intro x hx
    rcases List.mem_map.1 hx with ⟨l, hl, rfl⟩
    exact hTnn l hl
  -- assemble
  have : 3 * Real.sqrt ((input.links.map linkVariance).sum) ≤ (input.links.map T).sum := by
    have := mul_le_mul_of_nonneg_left hsqrt (by norm_num : (0:ℝ) ≤ 3)
    calc 3 * Real.sqrt ((input.links.map linkVariance).sum)
        ≤ 3 * (Real.sqrt (((input.links.map T).map fun x => x ^ 2).sum) / 3) := this
      _ = Real.sqrt (((input.links.map T).map fun x => x ^ 2).sum) := by ring
      _ ≤ (input.links.map T).sum := hfin
  calc 3 * Real.sqrt ((input.links.map linkVariance).sum)
      ≤ (input.links.map T).sum := this
    _ = ((input.links.map wcMax).sum - (input.links.map wcMin).sum) / 2 := by
        rw [sum_map_sub]
        rw [show (input.links.map fun x => wcMax x - wcMin x)
              = input.links.map fun l => T l * 2 from
            List.map_congr_left fun l _ => by rw [wcMax_sub_wcMin, hT]; ring]
        rw [List.sum_map_mul_right]
        ring

/-- Witness for `c4_rss_le_worst_amended` on a single normal link. -/
theorem c4_witness :
    (singleNormalChain.links ≠ [])
    ∧ (Stackup.calculate_tolerance_stackup singleNormalChain).rss.tolerance
        ≤ (Stackup.calculate_tolerance_stackup singleNormalChain).worst_case.tolerance := by
  have h1 : singleNormalChain.links ≠ [] := by simp [singleNormalChain]
  refine ⟨h1, c4_rss_le_worst_amended singleNormalChain h1 ?_ ?_ ?_⟩
  · intro l hl
    rw [singleNormalChain] at hl
    rw [List.mem_singleton] at hl
    subst hl
    decide
  · intro l hl
    rw [singleNormalChain] at hl
    rw [List.mem_singleton] at hl
    subst hl
    norm_num
  · intro l hl
    rw [singleNormalChain] at hl
    rw [List.mem_singleton] at hl
    subst hl
    norm_num

open Stackup in
/-- **C4 (counterexample).** On the single uniform link `{0, plus 1, minus 1}`
the RSS tolerance is `3*sqrt(4/12) = sqrt 3 > 1` while the worst-case
tolerance is `1`, so the claim "rss.tolerance <= worst_case.tolerance for
every non-empty link list whatever the distributions" is false. -/
theorem c4_counterexample :
    ¬ ((calculate_tolerance_stackup singleUniformChain).rss.tolerance
        ≤ (calculate_tolerance_stackup singleUniformChain).worst_case.tolerance) := by
  have h : singleUniformChain.links ≠ [] := by simp [singleUniformChain]
  rw [stackup_rss _ h, stackup_worst_case _ h, calculate_rss_eq, calculate_worst_case_eq]
  have hmap : singleUniformChain.links.map linkVariance = [(1 : ℝ) / 3] := by
    rw [singleUniformChain]
    simp only [List.map_cons, List.map_nil, linkVariance_eq_spec, specVariance]
    norm_num
  have hmin : singleUniformChain.links.map wcMin = [(-1 : ℝ)] := by
    rw [singleUniformChain]
    simp only [List.map_cons, List.map_nil, wcMin]
    rw [if_neg (by decide : ¬("positive" = "negative"))]
    norm_num
  have hmax : singleUniformChain.links.map wcMax = [(1 : ℝ)] := by
    rw [singleUniformChain]
    simp only [List.map_cons, List.map_nil, wcMax]
    rw [if_neg (by decide : ¬("positive" = "negative"))]
    norm_num
  rw [hmap, hmin, hmax]
  show ¬ (3 * Real.sqrt ([(1:ℝ)/3].sum) ≤ (([(1:ℝ)].sum - [(-1:ℝ)].sum) / 2))
  have hs : Real.sqrt ((1:ℝ)/3) ^ 2 = 1/3 := Real.sq_sqrt (by norm_num)
  have hs0 : 0 ≤ Real.sqrt ((1:ℝ)/3) := Real.sqrt_nonneg _
  simp only [List.sum_cons, List.sum_nil]
  push_neg
  nlinarith

namespace Stackup

lemma insertionSort_length (l : List ℝ) :
    (List.insertionSort (· ≤ ·) l).length = l.length :=
  (List.perm_insertionSort (· ≤ ·) l).length_eq

lemma sorted_getD_mono (l : List ℝ) (hs : List.Sorted (· ≤ ·) l) {i j : ℕ}
    (hij : i ≤ j) (hj : j < l.length) : l.getD i 0 ≤ l.getD j 0 := by
  have hi : i < l.length := lt_of_le_of_lt hij hj
  rw [List.getD_eq_getElem l 0 hi, List.getD_eq_getElem l 0 hj]
  exact hs.rel_get_of_le hij

lemma sorted_getD_zero_le (l : List ℝ) (hs : List.Sorted (· ≤ ·) l) (x : ℝ)
    (hx : x ∈ l) : l.getD 0 0 ≤ x := by
  rcases List.mem_iff_get.1 hx with ⟨i, rfl⟩
  have h0 : 0 < l.length := lt_of_le_of_lt (Nat.zero_le _) i.isLt
  rw [List.getD_eq_getElem l 0 h0]
  exact hs.rel_get_of_le (by exact Fin.mk_le_mk.2 (Nat.zero_le _))

lemma sorted_le_getD_last (l : List ℝ) (hs : List.Sorted (· ≤ ·) l) (x : ℝ)
    (hx : x ∈ l) : x ≤ l.getD (l.length - 1) 0 := by
  rcases List.mem_iff_get.1 hx with ⟨i, rfl⟩
  have hlast : l.length - 1 < l.length :=
    Nat.sub_lt (lt_of_le_of_lt (Nat.zero_le _) i.isLt) Nat.one_pos
  rw [List.getD_eq_getElem l 0 hlast]
  exact hs.rel_get_of_le (Fin.mk_le_mk.2 (Nat.le_sub_one_of_lt i.isLt))

lemma pctIdx_mono (N : ℕ) {c d : ℝ} (h : c ≤ d) : pctIdx N c ≤ pctIdx N d :=
  Nat.floor_le_floor (mul_le_mul_of_nonneg_left h (Nat.cast_nonneg N))

lemma pctIdx_le_pred (N : ℕ) (hN : 0 < N) {c : ℝ} (h0 : 0 ≤ c) (h1 : c < 1) :
    pctIdx N c ≤ N - 1 := by
  have hlt : pctIdx N c < N := by
    rw [pctIdx, Nat.floor_lt (mul_nonneg (Nat.cast_nonneg N) h0)]
    have hNpos : (0 : ℝ) < N := Nat.cast_pos.2 hN
    nlinarith
  exact Nat.le_pred_of_lt hlt

lemma half_le_pctIdx (N : ℕ) {c : ℝ} (hc : 1 / 2 ≤ c) : N / 2 ≤ pctIdx N c := by
  apply Nat.le_floor
  calc ((N / 2 : ℕ) : ℝ) ≤ (N : ℝ) / 2 := Nat.cast_div_le
    _ = (N : ℝ) * (1 / 2) := by ring
    _ ≤ (N : ℝ) * c := mul_le_mul_of_nonneg_left hc (Nat.cast_nonneg N)

lemma pctIdx_le_half (N : ℕ) {c : ℝ} (hc : c ≤ 1 / 2) :
    pctIdx N c ≤ N / 2 := by
  have h1 : pctIdx N c ≤ pctIdx N (1 / 2) := pctIdx_mono N hc
  have h2 : pctIdx N (1 / 2) = N / 2 := by
    rw [pctIdx, show (N : ℝ) * (1 / 2) = (N : ℝ) / ((2 : ℕ) : ℝ) by push_cast; ring,
      Nat.floor_div_nat, Nat.floor_natCast]
  omega

lemma indicator_sum_single (q : ℕ → Bool) (n i₀ : ℕ) (hi : i₀ < n)
    (hq : q i₀ = true) (hu : ∀ i, i < n → i ≠ i₀ → q i = false) :
    ((List.range n).map fun i => if q i then 1 else 0).sum = 1 := by
  induction n with
  | zero => omega
  | succ m ih =>
      rw [List.range_succ, List.map_append, List.sum_append]
      by_cases hm : i₀ = m
      · subst hm
        have hzero : ((List.range i₀).map fun i => if q i then 1 else 0).sum = 0 := by
          apply List.sum_eq_zero
          intro y hy
          rcases List.mem_map.1 hy with ⟨i, hmem, rfl⟩
          have hilt : i < i₀ := List.mem_range.1 hmem
          rw [hu i (Nat.lt_succ_of_lt hilt) (Nat.ne_of_lt hilt)]
          rfl
        simp [hzero, hq]
      · have hi' : i₀ < m := lt_of_le_of_ne (Nat.lt_succ_iff.1 hi) hm
        have ih' := ih hi' (fun i hlt hne => hu i (Nat.lt_succ_of_lt hlt) hne)
        have hqm : q m = false := hu m (Nat.lt_succ_self m) (fun he => hm (he.symm))
        simp [ih', hqm]

lemma sum_countP_eq_length (l : List ℝ) (q : ℕ → ℝ → Bool) (n : ℕ)
    (h : ∀ x ∈ l, ((List.range n).map fun i => if q i x then 1 else 0).sum = 1) :
    ((List.range n).map fun i => l.countP (q i)).sum = l.length := by
  induction l with
  | nil => simp
  | cons a t ih =>
      have ha := h a (List.mem_cons_self a t)
      have ht := fun x hx => h x (List.mem_cons_of_mem a hx)
      have hsplit : ((List.range n).map fun i => (a :: t).countP (q i))
          = (List.range n).map fun i => t.countP (q i) + if q i a then 1 else 0 :=
        List.map_congr_left fun i _ => List.countP_cons (q i) a t
      rw [hsplit, List.sum_map_add, ih ht, ha, List.length_cons]

lemma binPred_true_iff (mn w : ℝ) (nb i : ℕ) (x : ℝ) :
    binPred mn w nb i x = true
      ↔ (mn + i * w ≤ x ∧ (i = nb - 1 ∨ x < mn + i * w + w)) := by
  simp [binPred]

lemma binPred_false_iff (mn w : ℝ) (nb i : ℕ) (x : ℝ) :
    binPred mn w nb i x = false
      ↔ ¬(mn + i * w ≤ x ∧ (i = nb - 1 ∨ x < mn + i * w + w)) := by
  simp [binPred]

/-- Each sample in `[mn, mx]` falls in exactly one of the `nb` histogram
bins (the last bin also accepting `x = mx`). -/
lemma bin_exists_unique (nb : ℕ) (hnb : 0 < nb) (mn mx x w : ℝ)
    (hmn : mn ≤ x) (hmx : x ≤ mx) (hweq : (nb : ℝ) * w = mx - mn) :
    ∃ i₀, i₀ < nb ∧ binPred mn w nb i₀ x = true ∧
      ∀ i, i < nb → i ≠ i₀ → binPred mn w nb i x = false := by
  have hnbR : (0 : ℝ) < (nb : ℝ) := Nat.cast_pos.2 hnb
  have hwnn : 0 ≤ w := by
    by_contra hneg
    push_neg at hneg
    nlinarith
  by_cases hw0 : w = 0
  · -- degenerate bins: only the last bin accepts
    subst hw0
    have hxeq : x = mn := by nlinarith
    refine ⟨nb - 1, Nat.sub_lt hnb Nat.one_pos, ?_, ?_⟩
    · rw [binPred_true_iff]
      constructor
      · nlinarith
      · exact Or.inl rfl
    · intro i hi hne
      rw [binPred_false_iff]
      rintro ⟨-, hor⟩
      rcases hor with he | hlt
      · exact hne he
      · nlinarith
  · have hwpos : 0 < w := lt_of_le_of_ne hwnn (fun he => hw0 he.symm)
    set k := ⌊(x - mn) / w⌋₊ with hk
    have hdnn : 0 ≤ (x - mn) / w := div_nonneg (by linarith) hwnn
    have hk1 : mn + (k : ℝ) * w ≤ x := by
      have := Nat.floor_le hdnn
      rw [← hk] at this
      have := (le_div_iff₀ hwpos).1 this
      linarith
    have hk2 : x < mn + ((k : ℝ) + 1) * w := by
      have := Nat.lt_floor_add_one ((x - mn) / w)
      rw [← hk] at this
      have := (div_lt_iff₀ hwpos).1 this
      linarith
    by_cases hkle : k ≤ nb - 1
    · refine ⟨k, lt_of_le_of_lt hkle (Nat.sub_lt hnb Nat.one_pos), ?_, ?_⟩
      · rw [binPred_true_iff]
        refine ⟨hk1, ?_⟩
        by_cases hke : k = nb - 1
        · exact Or.inl hke
        · exact Or.inr (by linarith [hk2])
      · intro i hi hne
        rw [binPred_false_iff]
        rcases lt_or_gt_of_ne hne with hlt | hgt
        · -- i < k: the right boundary of bin i is at most the left of bin k
          rintro ⟨-, hor⟩
          have hine : i ≠ nb - 1 := by omega
          rcases hor with he | hxlt
          · exact hine he
          · have hcast : (i : ℝ) + 1 ≤ (k : ℝ) := by
              have : i + 1 ≤ k := hlt
              exact_mod_cast this
            nlinarith
        · -- i > k: bin i starts above x
          rintro ⟨hle, -⟩
          have hcast : (k : ℝ) + 1 ≤ (i : ℝ) := by
            have : k + 1 ≤ i := hgt
            exact_mod_cast this
          nlinarith
    · -- x is the maximum: only the final bin accepts it
      push_neg at hkle
      have hxmx : x = mx := by
        have hknb : nb ≤ k := by omega
        have hcast : (nb : ℝ) ≤ (k : ℝ) := Nat.cast_le.2 hknb
        have : mn + (nb : ℝ) * w ≤ x := by nlinarith
        nlinarith
      have hcastnb : ((nb - 1 : ℕ) : ℝ) = (nb : ℝ) - 1 := by
        rw [Nat.cast_sub hnb]
        norm_num
      refine ⟨nb - 1, Nat.sub_lt hnb Nat.one_pos, ?_, ?_⟩
      · rw [binPred_true_iff]
        constructor
        · rw [hcastnb]
          nlinarith
        · exact Or.inl rfl
      · intro i hi hne
        rw [binPred_false_iff]
        rintro ⟨-, hor⟩
        rcases hor with he | hxlt
        · exact hne he
        · have hile : i + 1 ≤ nb - 1 := by omega
          have hcast : (i : ℝ) + 1 ≤ (nb : ℝ) - 1 := by
            have h2 : ((i + 1 : ℕ) : ℝ) ≤ ((nb - 1 : ℕ) : ℝ) := Nat.cast_le.2 hile
            rw [hcastnb] at h2
            push_cast at h2
            linarith
          nlinarith

end Stackup

open Stackup in
/-- **C8.** For every positive sample count and whatever totals the random
sampler produced, the Monte-Carlo result satisfies
`min ≤ p0.1 ≤ p1 ≤ p5 ≤ p50 ≤ p95 ≤ p99 ≤ p99.9 ≤ max`, and the counts of
the 50 histogram bins sum to exactly the number of samples. -/
theorem c8_monte_carlo_ordering_and_histogram (results : List ℝ)
    (ts : Option TargetSpec) (hN : 0 < results.length) :
    ((run_monte_carlo results ts).min ≤ (run_monte_carlo results ts).percentiles.p0_1
      ∧ (run_monte_carlo results ts).percentiles.p0_1
          ≤ (run_monte_carlo results ts).percentiles.p1
      ∧ (run_monte_carlo results ts).percentiles.p1
          ≤ (run_monte_carlo results ts).percentiles.p5
      ∧ (run_monte_carlo results ts).percentiles.p5
          ≤ (run_monte_carlo results ts).percentiles.p50
      ∧ (run_monte_carlo results ts).percentiles.p50
          ≤ (run_monte_carlo results ts).percentiles.p95
      ∧ (run_monte_carlo results ts).percentiles.p95
          ≤ (run_monte_carlo results ts).percentiles.p99
      ∧ (run_monte_carlo results ts).percentiles.p99
          ≤ (run_monte_carlo results ts).percentiles.p99_9
      ∧ (run_monte_carlo results ts).percentiles.p99_9
          ≤ (run_monte_carlo results ts).max)
    ∧ ((run_monte_carlo results ts).histogram.map fun b => b.count).sum
        = results.length := by
  have hslen : (List.insertionSort (· ≤ ·) results).length = results.length :=
    insertionSort_length results
  have hsort : List.Sorted (· ≤ ·) (List.insertionSort (· ≤ ·) results) :=
    List.sorted_insertionSort (· ≤ ·) results
  -- index ordering facts
  have i1 : pctIdx results.length 0.001 ≤ pctIdx results.length 0.01 :=
    pctIdx_mono _ (by norm_num)
  have i2 : pctIdx results.length 0.01 ≤ pctIdx results.length 0.05 :=
    pctIdx_mono _ (by norm_num)
  have i3 : pctIdx results.length 0.05 ≤ results.length / 2 :=
    pctIdx_le_half _ (by norm_num)
  have i4 : results.length / 2 ≤ pctIdx results.length 0.95 :=
    half_le_pctIdx _ (by norm_num)
  have i5 : pctIdx results.length 0.95 ≤ pctIdx results.length 0.99 :=
    pctIdx_mono _ (by norm_num)
  have i6 : pctIdx results.length 0.99
      ≤ min (pctIdx results.length 0.999) (results.length - 1) :=
    le_min (pctIdx_mono _ (by norm_num)) (pctIdx_le_pred _ hN (by norm_num) (by norm_num))
  have i7 : min (pctIdx results.length 0.999) (results.length - 1)
      ≤ results.length - 1 := min_le_right _ _
  constructor
  · refine ⟨?_, ?_, ?_, ?_, ?_, ?_, ?_, ?_⟩
    · exact sorted_getD_mono _ hsort (Nat.zero_le _) (by rw [hslen]; omega)
    · exact sorted_getD_mono _ hsort i1 (by rw [hslen]; omega)
    · exact sorted_getD_mono _ hsort i2 (by rw [hslen]; omega)
    · exact sorted_getD_mono _ hsort i3 (by rw [hslen]; omega)
    · exact sorted_getD_mono _ hsort i4 (by rw [hslen]; omega)
    · exact sorted_getD_mono _ hsort i5 (by rw [hslen]; omega)
    · exact sorted_getD_mono _ hsort i6 (by rw [hslen]; omega)
    · exact sorted_getD_mono _ hsort i7 (by rw [hslen]; omega)
  · -- histogram counts sum to the number of samples
    have hmapcount : ((run_monte_carlo results ts).histogram.map fun b => b.count)
        = (List.range 50).map fun i =>
            (List.insertionSort (· ≤ ·) results).countP
              (binPred ((List.insertionSort (· ≤ ·) results).getD 0 0)
                (((List.insertionSort (· ≤ ·) results).getD (results.length - 1) 0
                    - (List.insertionSort (· ≤ ·) results).getD 0 0) / (50 : ℝ))
                50 i) := by
      rfl
    rw [hmapcount]
    refine (sum_countP_eq_length _ _ _ ?_).trans hslen
    intro x hx
    have hmn : (List.insertionSort (· ≤ ·) results).getD 0 0 ≤ x :=
      sorted_getD_zero_le _ hsort x hx
    have hmx : x ≤ (List.insertionSort (· ≤ ·) results).getD (results.length - 1) 0 := by
      have := sorted_le_getD_last _ hsort x hx
      rwa [hslen] at this
    rcases bin_exists_unique 50 (by norm_num)
        ((List.insertionSort (· ≤ ·) results).getD 0 0)
        ((List.insertionSort (· ≤ ·) results).getD (results.length - 1) 0) x
        (((List.insertionSort (· ≤ ·) results).getD (results.length - 1) 0
            - (List.insertionSort (· ≤ ·) results).getD 0 0) / (50 : ℝ))
        hmn hmx (by push_cast; ring) with ⟨i₀, hi₀, htrue, hfalse⟩
    exact indicator_sum_single _ 50 i₀ hi₀ htrue hfalse

/-- Witness for `c8_monte_carlo_ordering_and_histogram` on the three-sample
list `[1, 0, 2]`. -/
theorem c8_witness :
    0 < ([1, 0, 2] : List ℝ).length
    ∧ (((Stackup.run_monte_carlo [1, 0, 2] none).min
          ≤ (Stackup.run_monte_carlo [1, 0, 2] none).percentiles.p0_1
        ∧ (Stackup.run_monte_carlo [1, 0, 2] none).percentiles.p0_1
          ≤ (Stackup.run_monte_carlo [1, 0, 2] none).percentiles.p1
        ∧ (Stackup.run_monte_carlo [1, 0, 2] none).percentiles.p1
          ≤ (Stackup.run_monte_carlo [1, 0, 2] none).percentiles.p5
        ∧ (Stackup.run_monte_carlo [1, 0, 2] none).percentiles.p5
          ≤ (Stackup.run_monte_carlo [1, 0, 2] none).percentiles.p50
        ∧ (Stackup.run_monte_carlo [1, 0, 2] none).percentiles.p50
          ≤ (Stackup.run_monte_carlo [1, 0, 2] none).percentiles.p95
        ∧ (Stackup.run_monte_carlo [1, 0, 2] none).percentiles.p95
          ≤ (Stackup.run_monte_carlo [1, 0, 2] none).percentiles.p99
        ∧ (Stackup.run_monte_carlo [1, 0, 2] none).percentiles.p99
          ≤ (Stackup.run_monte_carlo [1, 0, 2] none).percentiles.p99_9
        ∧ (Stackup.run_monte_carlo [1, 0, 2] none).percentiles.p99_9
          ≤ (Stackup.run_monte_carlo [1, 0, 2] none).max)
      ∧ ((Stackup.run_monte_carlo [1, 0, 2] none).histogram.map fun b => b.count).sum
          = ([1, 0, 2] : List ℝ).length) :=
  ⟨by norm_num,
   c8_monte_carlo_ordering_and_histogram [1, 0, 2] none (by norm_num)⟩

namespace Interfaces

open Geom StepAssembly

lemma classify_ne_none (type_a type_b : String) (alignment : ℝ)
    (radius_a radius_b : Option ℝ) :
    classify_interface type_a type_b alignment radius_a radius_b ≠ "none" := by
  unfold classify_interface
  split_ifs <;> decide

end Interfaces

open Interfaces in
/-- **C3.** For every pair of faces of two distinct parts whose
world-transformed centers lie within `proximity_threshold` of each other,
`detect_mating_interfaces` classifies and records the pair as follows:
`face_to_face` when both faces are planar and the signed dot product of the
world normals is `< -0.9`, with contact area 10; `pin_in_hole` when both
faces are cylindrical with both radii present and differing by less than
0.5, with contact area `pi*r^2` using the first available radius;
`shaft_in_bore` when exactly one face is cylindrical and the other planar,
with the same area rule; `unknown` otherwise with contact area 1.  The
interface is kept exactly when the contact area reaches
`min_contact_area`, and it records the center distance as `proximity`, the
absolute dot product as `normal_alignment`, and the center midpoint as
`contact_point`.  (Stated over `pairInterface`, the recording step of the
face-pair loop of `find_interfaces_between_parts`, which
`detect_mating_interfaces` runs over every part pair.) -/
theorem c3_interface_classification (params : DetectionParams)
    (part_a part_b : StepAssembly.ParsedPart) (new_id : ℕ)
    (fa0 fb0 : StepAssembly.ParsedFace) (face_a face_b : TransformedFace)
    (hd : vec_distance face_a.center face_b.center ≤ params.proximity_threshold) :
    ((face_a.face_type = "planar" ∧ face_b.face_type = "planar"
        ∧ normal_alignment face_a.normal face_b.normal < -0.9) →
      classify_interface face_a.face_type face_b.face_type
          (normal_alignment face_a.normal face_b.normal) face_a.radius face_b.radius
        = "face_to_face"
      ∧ estimate_contact_area face_a face_b
          (classify_interface face_a.face_type face_b.face_type
            (normal_alignment face_a.normal face_b.normal) face_a.radius face_b.radius)
        = 10)
    ∧ (∀ r_a r_b : ℝ, face_a.radius = some r_a → face_b.radius = some r_b →
        face_a.face_type = "cylindrical" → face_b.face_type = "cylindrical" →
        |r_a - r_b| < 0.5 →
      classify_interface face_a.face_type face_b.face_type
          (normal_alignment face_a.normal face_b.normal) face_a.radius face_b.radius
        = "pin_in_hole"
      ∧ estimate_contact_area face_a face_b
          (classify_interface face_a.face_type face_b.face_type
            (normal_alignment face_a.normal face_b.normal) face_a.radius face_b.radius)
        = Real.pi * r_a * r_a)
    ∧ (((face_a.face_type = "cylindrical" ∧ face_b.face_type = "planar")
        ∨ (face_a.face_type = "planar" ∧ face_b.face_type = "cylindrical")) →
      classify_interface face_a.face_type face_b.face_type
          (normal_alignment face_a.normal face_b.normal) face_a.radius face_b.radius
        = "shaft_in_bore"
      ∧ ∀ r : ℝ, face_a.radius.or face_b.radius = some r →
          estimate_contact_area face_a face_b
            (classify_interface face_a.face_type face_b.face_type
              (normal_alignment face_a.normal face_b.normal) face_a.radius face_b.radius)
          = Real.pi * r * r)
    ∧ (¬(face_a.face_type = "planar" ∧ face_b.face_type = "planar"
          ∧ normal_alignment face_a.normal face_b.normal < -0.9) →
       ¬(face_a.face_type = "cylindrical" ∧ face_b.face_type = "cylindrical"
          ∧ radii_close face_a.radius face_b.radius = true) →
       ¬((face_a.face_type = "cylindrical" ∧ face_b.face_type = "planar")
          ∨ (face_a.face_type = "planar" ∧ face_b.face_type = "cylindrical")) →
      classify_interface face_a.face_type face_b.face_type
          (normal_alignment face_a.normal face_b.normal) face_a.radius face_b.radius
        = "unknown"
      ∧ estimate_contact_area face_a face_b
          (classify_interface face_a.face_type face_b.face_type
            (normal_alignment face_a.normal face_b.normal) face_a.radius face_b.radius)
        = 1)
    ∧ (params.min_contact_area
          ≤ estimate_contact_area face_a face_b
              (classify_interface face_a.face_type face_b.face_type
                (normal_alignment face_a.normal face_b.normal) face_a.radius face_b.radius) →
      pairInterface params part_a part_b new_id fa0 fb0 face_a face_b
        = some
          { id := "interface-" ++ toString new_id,
            part_a_id := part_a.id,
            part_a_face_id := fa0.id,
            part_b_id := part_b.id,
            part_b_face_id := fb0.id,
            interface_type := classify_interface face_a.face_type face_b.face_type
              (normal_alignment face_a.normal face_b.normal) face_a.radius face_b.radius,
            proximity := vec_distance face_a.center face_b.center,
            normal_alignment := |normal_alignment face_a.normal face_b.normal|,
            contact_area := estimate_contact_area face_a face_b
              (classify_interface face_a.face_type face_b.face_type
                (normal_alignment face_a.normal face_b.normal) face_a.radius face_b.radius),
            contact_point :=
              ((face_a.center.1 + face_b.center.1) / 2,
               (face_a.center.2.1 + face_b.center.2.1) / 2,
               (face_a.center.2.2 + face_b.center.2.2) / 2) })
    ∧ (estimate_contact_area face_a face_b
          (classify_interface face_a.face_type face_b.face_type
            (normal_alignment face_a.normal face_b.normal) face_a.radius face_b.radius)
          < params.min_contact_area →
      pairInterface params part_a part_b new_id fa0 fb0 face_a face_b = none) := by
  refine ⟨?_, ?_, ?_, ?_, ?_, ?_⟩
  · rintro ⟨h1, h2, h3⟩
    have hcl : classify_interface face_a.face_type face_b.face_type
        (normal_alignment face_a.normal face_b.normal) face_a.radius face_b.radius
        = "face_to_face" := by
      unfold classify_interface
      rw [if_pos ⟨h1, h2, h3⟩]
    refine ⟨hcl, ?_⟩
    rw [hcl]
    rfl
  · intro r_a r_b hra hrb hta htb hlt
    have hnot1 : ¬(face_a.face_type = "planar" ∧ face_b.face_type = "planar"
        ∧ normal_alignment face_a.normal face_b.normal < -0.9) := by
      rintro ⟨h1, -, -⟩
      rw [hta] at h1
      exact absurd h1 (by decide)
    have hrc : radii_close face_a.radius face_b.radius = true := by
      rw [hra, hrb]
      unfold radii_close
      exact decide_eq_true hlt
    have hcl : classify_interface face_a.face_type face_b.face_type
        (normal_alignment face_a.normal face_b.normal) face_a.radius face_b.radius
        = "pin_in_hole" := by
      unfold classify_interface
      rw [if_neg hnot1, if_pos ⟨hta, htb, hrc⟩]
    refine ⟨hcl, ?_⟩
    rw [hcl]
    unfold estimate_contact_area
    rw [show face_a.radius.or face_b.radius = some r_a by rw [hra]; rfl]
    rfl
  · intro hor
    have hnot1 : ¬(face_a.face_type = "planar" ∧ face_b.face_type = "planar"
        ∧ normal_alignment face_a.normal face_b.normal < -0.9) := by
      rintro ⟨h1, h2, -⟩
      rcases hor with ⟨ha, -⟩ | ⟨-, hb⟩
      · rw [ha] at h1
        exact absurd h1 (by decide)
      · rw [hb] at h2
        exact absurd h2 (by decide)
    have hnot2 : ¬(face_a.face_type = "cylindrical" ∧ face_b.face_type = "cylindrical"
        ∧ radii_close face_a.radius face_b.radius = true) := by
      rintro ⟨h1, h2, -⟩
      rcases hor with ⟨-, hb⟩ | ⟨ha, -⟩
      · rw [hb] at h2
        exact absurd h2 (by decide)
      · rw [ha] at h1
        exact absurd h1 (by decide)
    have hcl : classify_interface face_a.face_type face_b.face_type
        (normal_alignment face_a.normal face_b.normal) face_a.radius face_b.radius
        = "shaft_in_bore" := by
      unfold classify_interface
      rw [if_neg hnot1, if_neg hnot2, if_pos hor]
    refine ⟨hcl, ?_⟩
    intro r hr
    rw [hcl]
    unfold estimate_contact_area
    rw [hr]
    rfl
  · intro hn1 hn2 hn3
    have hcl : classify_interface face_a.face_type face_b.face_type
        (normal_alignment face_a.normal face_b.normal) face_a.radius face_b.radius
        = "unknown" := by
      unfold classify_interface
      rw [if_neg hn1, if_neg hn2, if_neg hn3]
    refine ⟨hcl, ?_⟩
    rw [hcl]
    rfl
  · intro harea
    unfold pairInterface
    rw [if_neg (not_lt.2 hd), if_neg (classify_ne_none _ _ _ _ _),
      if_neg (not_lt.2 harea)]
  · intro harea
    unfold pairInterface
    rw [if_neg (not_lt.2 hd), if_neg (classify_ne_none _ _ _ _ _), if_pos harea]

/-- Witness for `c3_interface_classification`: two opposing planar faces at
the same point are recorded as a `face_to_face` interface with contact area
10. -/
theorem c3_witness :
    (Interfaces.vec_distance c3face_a.center c3face_b.center
        ≤ c3params.proximity_threshold)
    ∧ Interfaces.pairInterface c3params c3part_a c3part_b 1 c3fa0 c3fb0 c3face_a c3face_b
      = some
        { id := "interface-" ++ toString 1,
          part_a_id := c3part_a.id,
          part_a_face_id := c3fa0.id,
          part_b_id := c3part_b.id,
          part_b_face_id := c3fb0.id,
          interface_type := "face_to_face",
          proximity := Interfaces.vec_distance c3face_a.center c3face_b.center,
          normal_alignment :=
            |Interfaces.normal_alignment c3face_a.normal c3face_b.normal|,
          contact_area := 10,
          contact_point :=
            ((c3face_a.center.1 + c3face_b.center.1) / 2,
             (c3face_a.center.2.1 + c3face_b.center.2.1) / 2,
             (c3face_a.center.2.2 + c3face_b.center.2.2) / 2) } := by
  have hd : Interfaces.vec_distance c3face_a.center c3face_b.center
      ≤ c3params.proximity_threshold := by
    show Interfaces.vec_distance (0, 0, 0) (0, 0, 0) ≤ (2 : ℝ)
    unfold Interfaces.vec_distance
    norm_num [Real.sqrt_zero]
  have hmain := c3_interface_classification c3params c3part_a c3part_b 1
    c3fa0 c3fb0 c3face_a c3face_b hd
  have halign : Interfaces.normal_alignment c3face_a.normal c3face_b.normal
      < -0.9 := by
    show Interfaces.normal_alignment (0, 0, 1) (0, 0, -1) < -0.9
    unfold Interfaces.normal_alignment
    norm_num
  have hcls := hmain.1 ⟨rfl, rfl, halign⟩
  have hrec := hmain.2.2.2.2.1 (by rw [hcls.2]; norm_num [c3params])
  rw [hcls.2, hcls.1] at hrec
  exact ⟨hd, hrec⟩

namespace Interfaces

open Geom StepAssembly

lemma normalize_unitZ : Geom.normalize ((0 : ℝ), (0 : ℝ), (1 : ℝ)) = (0, 0, 1) := by
  unfold Geom.normalize
  rw [show (0 : ℝ) * 0 + 0 * 0 + 1 * 1 = 1 by norm_num, Real.sqrt_one,
    if_pos (by norm_num : (1 : ℝ) > 1e-10)]
  norm_num

lemma normalize_unitX : Geom.normalize ((1 : ℝ), (0 : ℝ), (0 : ℝ)) = (1, 0, 0) := by
  unfold Geom.normalize
  rw [show (1 : ℝ) * 1 + 0 * 0 + 0 * 0 = 1 by norm_num, Real.sqrt_one,
    if_pos (by norm_num : (1 : ℝ) > 1e-10)]
  norm_num

end Interfaces

open Interfaces in
/-- **C7 (code evaluated at the failing input).** `detect_mating_interfaces`
never reads the `normal_threshold` parameter: with threshold 0.95, two
coincident freeform faces with orthogonal normals are still recorded as an
`unknown` interface whose `normal_alignment` is 0 < 0.95, so the returned
list is not pruned by normal alignment. -/
theorem c7_normal_threshold_ignored :
    ((detect_mating_interfaces [c7part_a, c7part_b] 2 0.95).interfaces.map
        fun itf => itf.normal_alignment) = [0]
    ∧ ¬((0 : ℝ) ≥ 0.95) := by
  constructor
  · have hctr : transform_point ((0 : ℝ), (0 : ℝ), (0 : ℝ)) StepAssembly.identity_matrix
        = ((0 : ℝ), (0 : ℝ), (0 : ℝ)) := by
      unfold transform_point StepAssembly.identity_matrix
      norm_num
    have hdirZ : transform_direction ((0 : ℝ), (0 : ℝ), (1 : ℝ)) StepAssembly.identity_matrix
        = ((0 : ℝ), (0 : ℝ), (1 : ℝ)) := by
      unfold transform_direction StepAssembly.identity_matrix
      norm_num [normalize_unitZ]
    have hdirX : transform_direction ((1 : ℝ), (0 : ℝ), (0 : ℝ)) StepAssembly.identity_matrix
        = ((1 : ℝ), (0 : ℝ), (0 : ℝ)) := by
      unfold transform_direction StepAssembly.identity_matrix
      dsimp only
      rw [show ((1 : ℝ) * 1 + 0 * 0 + 0 * 0, (0 : ℝ) * 1 + 1 * 0 + 0 * 0,
            (0 : ℝ) * 1 + 0 * 0 + 1 * 0) = ((1 : ℝ), (0 : ℝ), (0 : ℝ)) by norm_num]
      exact normalize_unitX
    have hfa : transform_face
        ⟨0, "freeform", (0, 0, 1), (0, 0, 0), 0, none, none, none⟩
        StepAssembly.identity_matrix
        = ⟨((0 : ℝ), (0 : ℝ), (0 : ℝ)), ((0 : ℝ), (0 : ℝ), (1 : ℝ)), "freeform", none⟩ := by
      unfold transform_face
      dsimp only
      rw [hctr, hdirZ]
    have hfb : transform_face
        ⟨0, "freeform", (1, 0, 0), (0, 0, 0), 0, none, none, none⟩
        StepAssembly.identity_matrix
        = ⟨((0 : ℝ), (0 : ℝ), (0 : ℝ)), ((1 : ℝ), (0 : ℝ), (0 : ℝ)), "freeform", none⟩ := by
      unfold transform_face
      dsimp only
      rw [hctr, hdirX]
    have hdist : vec_distance ((0 : ℝ), (0 : ℝ), (0 : ℝ)) ((0 : ℝ), (0 : ℝ), (0 : ℝ)) = 0 := by
      unfold vec_distance
      norm_num [Real.sqrt_zero]
    have hcls : classify_interface "freeform" "freeform"
        (normal_alignment ((0 : ℝ), (0 : ℝ), (1 : ℝ)) ((1 : ℝ), (0 : ℝ), (0 : ℝ)))
        none none = "unknown" := by
      unfold classify_interface
      rw [if_neg (fun h => absurd h.1 (by decide : ¬("freeform" = "planar"))),
        if_neg (fun h => absurd h.1 (by decide : ¬("freeform" = "cylindrical"))),
        if_neg ?_]
      rintro (⟨h, -⟩ | ⟨h, -⟩) <;> exact absurd h (by decide)
    have halign : normal_alignment ((0 : ℝ), (0 : ℝ), (1 : ℝ)) ((1 : ℝ), (0 : ℝ), (0 : ℝ)) = 0 := by
      unfold normal_alignment
      norm_num
    have hpair : pairInterface ⟨2, 0.95, 1⟩ c7part_a c7part_b 1
        ⟨0, "freeform", (0, 0, 1), (0, 0, 0), 0, none, none, none⟩
        ⟨0, "freeform", (1, 0, 0), (0, 0, 0), 0, none, none, none⟩
        ⟨((0 : ℝ), (0 : ℝ), (0 : ℝ)), ((0 : ℝ), (0 : ℝ), (1 : ℝ)), "freeform", none⟩
        ⟨((0 : ℝ), (0 : ℝ), (0 : ℝ)), ((1 : ℝ), (0 : ℝ), (0 : ℝ)), "freeform", none⟩
        = some
          { id := "interface-" ++ toString 1,
            part_a_id := "part-0", part_a_face_id := 0,
            part_b_id := "part-1", part_b_face_id := 0,
            interface_type := "unknown",
            proximity := 0, normal_alignment := 0, contact_area := 1,
            contact_point := ((0 : ℝ), (0 : ℝ), (0 : ℝ)) } := by
      unfold pairInterface
      dsimp only
      rw [hdist, if_neg (by norm_num : ¬((0 : ℝ) > 2)), hcls,
        if_neg (by decide : ¬("unknown" = "none"))]
      rw [show estimate_contact_area
            ⟨((0 : ℝ), (0 : ℝ), (0 : ℝ)), ((0 : ℝ), (0 : ℝ), (1 : ℝ)), "freeform", none⟩
            ⟨((0 : ℝ), (0 : ℝ), (0 : ℝ)), ((1 : ℝ), (0 : ℝ), (0 : ℝ)), "freeform", none⟩
            "unknown" = 1 from rfl]
      rw [if_neg (by norm_num : ¬((1 : ℝ) < 1)), halign]
      simp only [c7part_a, c7part_b]
      norm_num
    have hfind : find_interfaces_between_parts c7part_a c7part_b ⟨2, 0.95, 1⟩ 0
        = ([{ id := "interface-" ++ toString 1,
              part_a_id := "part-0", part_a_face_id := 0,
              part_b_id := "part-1", part_b_face_id := 0,
              interface_type := "unknown",
              proximity := 0, normal_alignment := 0, contact_area := 1,
              contact_point := ((0 : ℝ), (0 : ℝ), (0 : ℝ)) }], 1) := by
      unfold find_interfaces_between_parts
      rw [show List.product c7part_a.faces c7part_b.faces
            = [(⟨0, "freeform", (0, 0, 1), (0, 0, 0), 0, none, none, none⟩,
                ⟨0, "freeform", (1, 0, 0), (0, 0, 0), 0, none, none, none⟩)]
          from rfl]
      rw [List.foldl_cons, List.foldl_nil]
      dsimp only
      rw [show c7part_a.transform = StepAssembly.identity_matrix from rfl,
        show c7part_b.transform = StepAssembly.identity_matrix from rfl, hfa, hfb, hpair]
      rfl
    unfold detect_mating_interfaces
    dsimp only
    rw [show (List.range ([c7part_a, c7part_b] : List StepAssembly.ParsedPart).length).flatMap
          (fun i => ((List.range ([c7part_a, c7part_b] : List StepAssembly.ParsedPart).length).drop (i + 1)).map
            fun j => (i, j)) = [((0 : ℕ), (1 : ℕ))] from rfl]
    rw [List.foldl_cons, List.foldl_nil]
    rw [show ([c7part_a, c7part_b] : List StepAssembly.ParsedPart).get? 0 = some c7part_a
        from rfl,
      show ([c7part_a, c7part_b] : List StepAssembly.ParsedPart).get? 1 = some c7part_b
        from rfl]
    dsimp only
    rw [hfind]
    rfl
  · norm_num

open StepAssembly in
/-- **C10.** Every face record produced by the assembly parser has `area`
exactly 0: `extract_faces_for_product` writes the literal 0.0 into every
face, whatever the surface kind or placement, so face area is never
computed from geometry. -/
theorem c10_face_area_always_zero (hm : Bool) (entities : List StepEntity)
    (chp nauo : Bool) (fn : String) :
    ∀ part ∈ (parse_assembly_core hm entities chp nauo fn).parts,
      ∀ f ∈ part.faces, f.area = 0 := by
  intro part hpart f hf
  cases hm with
  | false =>
      exfalso
      unfold parse_assembly_core at hpart
      simp at hpart
  | true =>
      unfold parse_assembly_core at hpart
      rw [if_neg (by decide : ¬((!true) = true))] at hpart
      dsimp only at hpart
      rcases List.mem_map.1 hpart with ⟨p, -, rfl⟩
      dsimp only at hf
      unfold extract_faces_for_product at hf
      rcases List.mem_map.1 hf with ⟨q, -, rfl⟩
      rfl

/-- Witness for `c10_face_area_always_zero`: the single face of the single
parsed part has area 0. -/
theorem c10_witness :
    ((((StepAssembly.parse_assembly_core true c10entities false false
        "box.step").parts.get ⟨0, by decide⟩).faces.get ⟨0, by decide⟩)).area = 0 :=
  c10_face_area_always_zero true c10entities false false "box.step"
    _ (List.get_mem _ _ _) _ (List.get_mem _ _ _)

namespace StepAssembly

open Geom

/-- The reference loop of `extract_face_geometry` leaves the face type at
"freeform" when no reference resolves to one of the five recognized
surface kinds. -/
lemma faceGeo_foldl_freeform (entities : List StepEntity) (rs : List ℤ)
    (hres : ∀ r ∈ rs, ∀ e, lookup entities r = some e →
      e.entity_type ∉ (["PLANE", "CYLINDRICAL_SURFACE", "CONICAL_SURFACE",
        "SPHERICAL_SURFACE", "TOROIDAL_SURFACE"] : List String)) :
    ∀ st : FaceGeo, st.face_type = "freeform" →
      (rs.foldl (faceGeoStep entities) st).face_type = "freeform" := by
  induction rs with
  | nil => intro st hst; simpa using hst
  | cons r t ih =>
      intro st hst
      rw [List.foldl_cons]
      apply ih (fun x hx => hres x (List.mem_cons_of_mem r hx))
      unfold faceGeoStep
      split
      · exact hst
      · next e heq =>
          have hne := hres r (List.mem_cons_self r t) e heq
          split
          · next heq2 => rw [heq2] at hne; exact absurd (by decide) hne
          · next heq2 => rw [heq2] at hne; exact absurd (by decide) hne
          · next heq2 => rw [heq2] at hne; exact absurd (by decide) hne
          · next heq2 => rw [heq2] at hne; exact absurd (by decide) hne
          · next heq2 => rw [heq2] at hne; exact absurd (by decide) hne
          · rfl
          · rfl
          · exact hst

end StepAssembly

open StepAssembly in
/-- **C9 (amended).** For every ADVANCED_FACE / FACE_SURFACE payload all of
whose references are unresolved, B_SPLINE_SURFACE*, or of unrecognized
kind (nothing in the recognized five-surface set), the extracted face type
is "freeform" - unless the file content contains the substring "PLANE"
anywhere, in which case the content-wide fallback of assembly_parser.rs
lines 359-363 turns it into "planar".  (The original claim asserted
"freeform" unconditionally; see the counterexample.) -/
theorem c9_unrecognized_surface_freeform (entities : List StepEntity)
    (d : EntityData) (content_has_plane : Bool)
    (hres : ∀ r ∈ d.refs, ∀ e, lookup entities r = some e →
      e.entity_type ∉ (["PLANE", "CYLINDRICAL_SURFACE", "CONICAL_SURFACE",
        "SPHERICAL_SURFACE", "TOROIDAL_SURFACE"] : List String)) :
    (extract_face_geometry entities d content_has_plane).face_type
      = if content_has_plane then "planar" else "freeform" := by
  have hft := faceGeo_foldl_freeform entities d.refs hres
    ⟨"freeform", (0, 0, 1), (0, 0, 0), none, none⟩ rfl
  unfold extract_face_geometry
  cases content_has_plane with
  | true =>
      rw [if_pos ⟨hft, rfl⟩]
      rfl
  | false =>
      rw [if_neg (fun h => by simpa using h.2)]
      exact hft

/-- **C9 (counterexample).** A face referencing only a B_SPLINE_SURFACE, in
a file whose content contains "PLANE" (here an unrelated PLANE entity), is
extracted as "planar", not "freeform" as the original claim states. -/
theorem c9_counterexample :
    (StepAssembly.extract_face_geometry c9entities c9face_data true).face_type
      = "planar"
    ∧ ("planar" : String) ≠ "freeform" := by
  constructor
  · rfl
  · decide

/-- Witness for `c9_unrecognized_surface_freeform`: without "PLANE" in the
content, the B-spline face is extracted as "freeform". -/
theorem c9_witness :
    (StepAssembly.extract_face_geometry c9entities c9face_data false).face_type
      = if false then "planar" else "freeform" :=
  c9_unrecognized_surface_freeform c9entities c9face_data false
    (by
      intro r hr e he
      rw [c9face_data] at hr
      rw [List.mem_singleton] at hr
      subst hr
      rw [show StepAssembly.lookup c9entities 5
          = some ⟨5, "B_SPLINE_SURFACE", ⟨[], none, none, none⟩⟩ from rfl] at he
      injection he with he2
      subst he2
      decide)

namespace StepAssembly

open Geom

/-- The rotation block built from orthonormal `x`, `z` and `y = cross z x`
has orthonormal columns and determinant +1. -/
lemma axisM_rot_orthonormal (x z loc : Vec3)
    (hx : dotV x x = 1) (hz : dotV z z = 1) (hxz : dotV x z = 0) :
    (rot_block (axisM x (cross z x) z loc)).transpose * rot_block (axisM x (cross z x) z loc) = 1
    ∧ (rot_block (axisM x (cross z x) z loc)).det = 1 := by
  obtain ⟨x1, x2, x3⟩ := x
  obtain ⟨z1, z2, z3⟩ := z
  unfold dotV at hx hz hxz
  dsimp only at hx hz hxz
  have hA : rot_block (axisM (x1, x2, x3)
      (cross (z1, z2, z3) (x1, x2, x3)) (z1, z2, z3) loc)
      = !![x1, z2 * x3 - z3 * x2, z1;
           x2, z3 * x1 - z1 * x3, z2;
           x3, z1 * x2 - z2 * x1, z3] := rfl
  have hAT : (!![x1, z2 * x3 - z3 * x2, z1;
                 x2, z3 * x1 - z1 * x3, z2;
                 x3, z1 * x2 - z2 * x1, z3] : Matrix (Fin 3) (Fin 3) ℝ).transpose
      = !![x1, x2, x3;
           z2 * x3 - z3 * x2, z3 * x1 - z1 * x3, z1 * x2 - z2 * x1;
           z1, z2, z3] := by
    ext i j
    fin_cases i <;> fin_cases j <;> rfl
  constructor
  · rw [hA, hAT, Matrix.mul_fin_three, Matrix.one_fin_three]
    refine congrArg Matrix.of (Matrix.vec3_eq (Matrix.vec3_eq ?_ ?_ ?_)
      (Matrix.vec3_eq ?_ ?_ ?_) (Matrix.vec3_eq ?_ ?_ ?_))
    · linear_combination hx
    · ring1
    · linear_combination hxz
    · ring1
    · linear_combination (z1 * z1 + z2 * z2 + z3 * z3) * hx + hz
        - (x1 * z1 + x2 * z2 + x3 * z3) * hxz
    · ring1
    · linear_combination hxz
    · ring1
    · linear_combination hz
  · rw [hA]
    simp [Matrix.det_fin_three]
    linear_combination (z1 * z1 + z2 * z2 + z3 * z3) * hx + hz
      - (x1 * z1 + x2 * z2 + x3 * z3) * hxz

end StepAssembly

open StepAssembly Geom in
/-- **C5 (amended).** For every AXIS2_PLACEMENT_3D payload with at least one
reference, the emitted transform is the column-major matrix with columns
`(X, 0)`, `(Y, 0)`, `(Z, 0)`, `(location, 1)` where `Y = Z x X` (see
`axisM`); when the resolved X and Z directions are orthonormal (unit and
perpendicular - mere linear independence is not enough, see the
counterexample), the upper-left 3x3 rotation block has orthonormal columns
and determinant +1; and unresolved references default to the origin
location, the +Z axis and the +X reference direction. -/
theorem c5_axis_placement_matrix (entities : List StepEntity) (d : EntityData)
    (hne : d.refs.isEmpty = false) :
    (parse_axis_placement entities d
      = some (axisM (resolved_x_axis entities d.refs)
          (cross (resolved_z_axis entities d.refs) (resolved_x_axis entities d.refs))
          (resolved_z_axis entities d.refs)
          (resolved_location entities d.refs)))
    ∧ (dotV (resolved_x_axis entities d.refs) (resolved_x_axis entities d.refs) = 1 →
      dotV (resolved_z_axis entities d.refs) (resolved_z_axis entities d.refs) = 1 →
      dotV (resolved_x_axis entities d.refs) (resolved_z_axis entities d.refs) = 0 →
      (rot_block (axisM (resolved_x_axis entities d.refs)
          (cross (resolved_z_axis entities d.refs) (resolved_x_axis entities d.refs))
          (resolved_z_axis entities d.refs)
          (resolved_location entities d.refs))).transpose
        * rot_block (axisM (resolved_x_axis entities d.refs)
          (cross (resolved_z_axis entities d.refs) (resolved_x_axis entities d.refs))
          (resolved_z_axis entities d.refs)
          (resolved_location entities d.refs)) = 1
      ∧ (rot_block (axisM (resolved_x_axis entities d.refs)
          (cross (resolved_z_axis entities d.refs) (resolved_x_axis entities d.refs))
          (resolved_z_axis entities d.refs)
          (resolved_location entities d.refs))).det = 1)
    ∧ (∀ (ents2 : List StepEntity) (refs2 : List ℤ),
        (((refs2.get? 0).bind (lookup ents2)).bind fun e =>
          parse_cartesian_point e.data) = none →
        resolved_location ents2 refs2 = (0, 0, 0))
    ∧ (∀ (ents2 : List StepEntity) (refs2 : List ℤ),
        (((refs2.get? 1).bind (lookup ents2)).bind fun e =>
          parse_direction e.data) = none →
        resolved_z_axis ents2 refs2 = (0, 0, 1))
    ∧ (∀ (ents2 : List StepEntity) (refs2 : List ℤ),
        (((refs2.get? 2).bind (lookup ents2)).bind fun e =>
          parse_direction e.data) = none →
        resolved_x_axis ents2 refs2 = (1, 0, 0)) := by
  refine ⟨?_, fun hx hz hxz => axisM_rot_orthonormal _ _ _ hx hz hxz, ?_, ?_, ?_⟩
  · unfold parse_axis_placement
    simp only [hne]
    rw [if_neg (by decide : ¬(false = true))]
    rfl
  · intro ents2 refs2 h
    unfold resolved_location
    rw [h]
    rfl
  · intro ents2 refs2 h
    unfold resolved_z_axis
    rw [h]
    rfl
  · intro ents2 refs2 h
    unfold resolved_x_axis
    rw [h]
    rfl

/-- Witness for `c5_axis_placement_matrix` on an orthonormal frame. -/
theorem c5_witness :
    (c5dataW.refs.isEmpty = false)
    ∧ Geom.dotV (StepAssembly.resolved_x_axis c5entsW c5dataW.refs)
        (StepAssembly.resolved_x_axis c5entsW c5dataW.refs) = 1
    ∧ Geom.dotV (StepAssembly.resolved_z_axis c5entsW c5dataW.refs)
        (StepAssembly.resolved_z_axis c5entsW c5dataW.refs) = 1
    ∧ Geom.dotV (StepAssembly.resolved_x_axis c5entsW c5dataW.refs)
        (StepAssembly.resolved_z_axis c5entsW c5dataW.refs) = 0
    ∧ StepAssembly.parse_axis_placement c5entsW c5dataW
      = some (StepAssembly.axisM (StepAssembly.resolved_x_axis c5entsW c5dataW.refs)
          (Geom.cross (StepAssembly.resolved_z_axis c5entsW c5dataW.refs)
            (StepAssembly.resolved_x_axis c5entsW c5dataW.refs))
          (StepAssembly.resolved_z_axis c5entsW c5dataW.refs)
          (StepAssembly.resolved_location c5entsW c5dataW.refs)) := by
  have h1 : c5dataW.refs.isEmpty = false := rfl
  have hxv : StepAssembly.resolved_x_axis c5entsW c5dataW.refs
      = ((1 : ℝ), (0 : ℝ), (0 : ℝ)) := by
    rw [show StepAssembly.resolved_x_axis c5entsW c5dataW.refs
        = Geom.normalize ((1 : ℝ), (0 : ℝ), (0 : ℝ)) from rfl,
      Interfaces.normalize_unitX]
  have hzv : StepAssembly.resolved_z_axis c5entsW c5dataW.refs
      = ((0 : ℝ), (0 : ℝ), (1 : ℝ)) := by
    rw [show StepAssembly.resolved_z_axis c5entsW c5dataW.refs
        = Geom.normalize ((0 : ℝ), (0 : ℝ), (1 : ℝ)) from rfl,
      Interfaces.normalize_unitZ]
  have hx : Geom.dotV (StepAssembly.resolved_x_axis c5entsW c5dataW.refs)
      (StepAssembly.resolved_x_axis c5entsW c5dataW.refs) = 1 := by
    rw [hxv]
    unfold Geom.dotV
    norm_num
  have hz : Geom.dotV (StepAssembly.resolved_z_axis c5entsW c5dataW.refs)
      (StepAssembly.resolved_z_axis c5entsW c5dataW.refs) = 1 := by
    rw [hzv]
    unfold Geom.dotV
    norm_num
  have hxz : Geom.dotV (StepAssembly.resolved_x_axis c5entsW c5dataW.refs)
      (StepAssembly.resolved_z_axis c5entsW c5dataW.refs) = 0 := by
    rw [hxv, hzv]
    unfold Geom.dotV
    norm_num
  exact ⟨h1, hx, hz, hxz,
    (c5_axis_placement_matrix c5entsW c5dataW h1).1⟩

open StepAssembly Geom in
/-- **C5 (counterexample).** With Z = (0,0,1) and raw X = (1,0,1) the
resolved directions are linearly independent (their cross product is
non-zero), yet the emitted rotation block has determinant 1/2, so it is not
a rotation: linear independence of X and Z does not suffice for the
orthonormality/determinant claim. -/
theorem c5_counterexample :
    cross (resolved_z_axis c5entsC c5dataC.refs) (resolved_x_axis c5entsC c5dataC.refs)
      ≠ ((0 : ℝ), (0 : ℝ), (0 : ℝ))
    ∧ ¬((rot_block (axisM (resolved_x_axis c5entsC c5dataC.refs)
          (cross (resolved_z_axis c5entsC c5dataC.refs)
            (resolved_x_axis c5entsC c5dataC.refs))
          (resolved_z_axis c5entsC c5dataC.refs)
          (resolved_location c5entsC c5dataC.refs))).transpose
          * rot_block (axisM (resolved_x_axis c5entsC c5dataC.refs)
            (cross (resolved_z_axis c5entsC c5dataC.refs)
              (resolved_x_axis c5entsC c5dataC.refs))
            (resolved_z_axis c5entsC c5dataC.refs)
            (resolved_location c5entsC c5dataC.refs)) = 1
        ∧ (rot_block (axisM (resolved_x_axis c5entsC c5dataC.refs)
            (cross (resolved_z_axis c5entsC c5dataC.refs)
              (resolved_x_axis c5entsC c5dataC.refs))
            (resolved_z_axis c5entsC c5dataC.refs)
            (resolved_location c5entsC c5dataC.refs))).det = 1)
    ∧ parse_axis_placement c5entsC c5dataC
      = some (axisM (resolved_x_axis c5entsC c5dataC.refs)
          (cross (resolved_z_axis c5entsC c5dataC.refs)
            (resolved_x_axis c5entsC c5dataC.refs))
          (resolved_z_axis c5entsC c5dataC.refs)
          (resolved_location c5entsC c5dataC.refs)) := by
  have hs2 : Real.sqrt 2 > 1e-10 := by
    have h1 : (1 : ℝ) ≤ Real.sqrt 2 := by
      rw [show (1 : ℝ) = Real.sqrt 1 by rw [Real.sqrt_one]]
      exact Real.sqrt_le_sqrt (by norm_num)
    linarith
  have hzv : resolved_z_axis c5entsC c5dataC.refs = ((0 : ℝ), (0 : ℝ), (1 : ℝ)) := by
    rw [show resolved_z_axis c5entsC c5dataC.refs
        = Geom.normalize ((0 : ℝ), (0 : ℝ), (1 : ℝ)) from rfl,
      Interfaces.normalize_unitZ]
  have hxv : resolved_x_axis c5entsC c5dataC.refs
      = (1 / Real.sqrt 2, (0 : ℝ), 1 / Real.sqrt 2) := by
    rw [show resolved_x_axis c5entsC c5dataC.refs
        = Geom.normalize ((1 : ℝ), (0 : ℝ), (1 : ℝ)) from rfl]
    unfold Geom.normalize
    rw [show (1 : ℝ) * 1 + 0 * 0 + 1 * 1 = 2 by norm_num]
    rw [if_pos hs2]
    norm_num
  have hcross : cross (resolved_z_axis c5entsC c5dataC.refs)
      (resolved_x_axis c5entsC c5dataC.refs)
      = ((0 : ℝ), 1 / Real.sqrt 2, (0 : ℝ)) := by
    rw [hzv, hxv]
    unfold cross
    norm_num
  have hspos : (0 : ℝ) < 1 / Real.sqrt 2 := by
    have : (0 : ℝ) < Real.sqrt 2 := Real.sqrt_pos.2 (by norm_num)
    positivity
  have hrot : rot_block (axisM (resolved_x_axis c5entsC c5dataC.refs)
      (cross (resolved_z_axis c5entsC c5dataC.refs)
        (resolved_x_axis c5entsC c5dataC.refs))
      (resolved_z_axis c5entsC c5dataC.refs)
      (resolved_location c5entsC c5dataC.refs))
      = !![1 / Real.sqrt 2, 0, 0;
           0, 1 / Real.sqrt 2, 0;
           1 / Real.sqrt 2, 0, 1] := by
    rw [hcross, hxv, hzv]
    rfl
  have hdetval : (rot_block (axisM (resolved_x_axis c5entsC c5dataC.refs)
      (cross (resolved_z_axis c5entsC c5dataC.refs)
        (resolved_x_axis c5entsC c5dataC.refs))
      (resolved_z_axis c5entsC c5dataC.refs)
      (resolved_location c5entsC c5dataC.refs))).det = 1 / 2 := by
    rw [hrot]
    simp [Matrix.det_fin_three]
    rw [← mul_inv, Real.mul_self_sqrt (by norm_num : (0 : ℝ) ≤ 2)]
  refine ⟨?_, ?_, ?_⟩
  · rw [hcross]
    intro h
    have h2 := congrArg (fun v : Geom.Vec3 => v.2.1) h
    dsimp only at h2
    exact absurd h2 (ne_of_gt hspos)
  · rintro ⟨-, hdet⟩
    rw [hdetval] at hdet
    norm_num at hdet
  · unfold parse_axis_placement
    simp only [show c5dataC.refs.isEmpty = false from rfl]
    rw [if_neg (by decide : ¬(false = true))]
    rfl
